import Mathlib

/-!
# QtUsb presence tracker (`src/src/usb/qusbinfo.cpp`)

A shallow embedding of `QUsbInfo` (the watch list, the system snapshot, the
reconciliation step `monitorDevices`, the queries) and of the libusb hotplug
callback, with the properties of the specification stated over it.

Conventions of the embedding
* `QList<T>` is `List T`; `at(i)` is `List.get` with the bound taken from the
  loop guard, `append` is `++ [x]`, `removeAt` is `List.eraseIdx`.
* C `int` results are `Int`; loop counters are `Nat` (they start at 0 and only
  grow while below `length()`).
* The 16-bit ids (`quint16`, `uint16_t`) are `Nat`: the code only copies and
  compares them.
* A member function takes the object state and returns an `Outcome`: the
  returned value, the object state afterwards and the signals emitted, in
  order. Each emitted signal is recorded with the object state at the moment
  the `emit` statement runs.
-/

namespace QUsbDevice

/-- Modelled from the spec: the declaration of `QUsbDevice::Filter` (header
`qusbdevice.h`) is not among the sources; the spec gives the identity as
`{vendorId: u16, productId: u16}`, and the code reads the members `vid` and
`pid`. -/
structure Filter where
  pid : Nat
  vid : Nat
deriving DecidableEq, Repr

/-- The `QUsbDevice::FilterList` of the source, a `QList<Filter>`. -/
abbrev FilterList := List Filter

end QUsbDevice

open QUsbDevice (FilterList)

/-- The two signals of `QUsbInfo`, each carrying a list of filters. -/
inductive Signal where
  | deviceInserted (list : FilterList)
  | deviceRemoved (list : FilterList)
deriving DecidableEq, Repr

/-- The members of `QUsbInfo` that the tracker reads and writes;
`m_has_hotplug` lives in the private part (`QUsbInfoPrivate`). -/
structure QUsbInfo where
  m_filter_list : FilterList
  m_system_list : FilterList
  m_has_hotplug : Bool
deriving DecidableEq, Repr

/-- One executed `emit`: the signal and the object state at that moment. -/
structure Emission where
  signal : Signal
  seen : QUsbInfo
deriving DecidableEq, Repr

/-- What a member function call leaves behind. -/
structure Outcome (α : Type) where
  ret : α
  state : QUsbInfo
  emitted : List Emission

namespace QUsbInfo

/-- The loop of `findDevice` (lines 191-197) from counter value `i` on. -/
def findDevice.loop (filter : QUsbDevice.Filter) (list : FilterList) (i : Nat) : Int :=
  if h : i < list.length then
    let d := list.get ⟨i, h⟩
    if d.pid = filter.pid ∧ d.vid = filter.vid then
      (i : Int)
    else
      findDevice.loop filter list (i + 1)
  else
    -1
termination_by list.length - i

/-- `QUsbInfo::findDevice` (lines 189-199). -/
def findDevice (filter : QUsbDevice.Filter) (list : FilterList) : Int :=
  findDevice.loop filter list 0

/-- The loop of `getPresentDevices` (lines 156-161) from counter value `i`
on, `list` being the local result list. -/
def getPresentDevices.loop (s : QUsbInfo) (i : Nat) (list : FilterList) : FilterList :=
  if h : i < s.m_filter_list.length then
    let filter := s.m_filter_list.get ⟨i, h⟩
    if findDevice filter s.m_system_list < 0 then
      getPresentDevices.loop s (i + 1) (list ++ [filter])
    else
      getPresentDevices.loop s (i + 1) list
  else
    list
termination_by s.m_filter_list.length - i

/-- `QUsbInfo::getPresentDevices` (lines 150-163). -/
def getPresentDevices (s : QUsbInfo) : Outcome FilterList :=
  { ret := getPresentDevices.loop s 0 [], state := s, emitted := [] }

/-- `QUsbInfo::isPresent` (lines 165-168). -/
def isPresent (s : QUsbInfo) (filter : QUsbDevice.Filter) : Outcome Bool :=
  { ret := decide (findDevice filter s.m_system_list ≥ 0), state := s, emitted := [] }

/-- `QUsbInfo::addDevice` (lines 170-177). -/
def addDevice (s : QUsbInfo) (filter : QUsbDevice.Filter) : Outcome Bool :=
  if findDevice filter s.m_filter_list = -1 then
    { ret := true
      state := { s with m_filter_list := s.m_filter_list ++ [filter] }
      emitted := [] }
  else
    { ret := false, state := s, emitted := [] }

/-- `QUsbInfo::removeDevice` (lines 179-187). -/
def removeDevice (s : QUsbInfo) (filter : QUsbDevice.Filter) : Outcome Bool :=
  let pos := findDevice filter s.m_filter_list
  if pos > 0 then
    { ret := true
      state := { s with m_filter_list := s.m_filter_list.eraseIdx pos.toNat }
      emitted := [] }
  else
    { ret := true, state := s, emitted := [] }

/-- First loop of `monitorDevices` (lines 218-224) from counter value `i` on. -/
def monitorDevices.loopInserted (s : QUsbInfo) (list : FilterList) (i : Nat)
    (inserted : FilterList) : FilterList :=
  if h : i < list.length then
    let filter := list.get ⟨i, h⟩
    if findDevice filter s.m_system_list < 0 then
      monitorDevices.loopInserted s list (i + 1) (inserted ++ [filter])
    else
      monitorDevices.loopInserted s list (i + 1) inserted
  else
    inserted
termination_by list.length - i

/-- Second loop of `monitorDevices` (lines 226-232) from counter value `i` on. -/
def monitorDevices.loopRemoved (s : QUsbInfo) (list : FilterList) (i : Nat)
    (removed : FilterList) : FilterList :=
  if h : i < s.m_system_list.length then
    let filter := s.m_system_list.get ⟨i, h⟩
    if findDevice filter list < 0 then
      monitorDevices.loopRemoved s list (i + 1) (removed ++ [filter])
    else
      monitorDevices.loopRemoved s list (i + 1) removed
  else
    removed
termination_by s.m_system_list.length - i

/-- `QUsbInfo::monitorDevices` (lines 212-241): both loops, the two guarded
`emit`s (which run while `m_system_list` is still the old list), then the
assignment `m_system_list = list`. -/
def monitorDevices (s : QUsbInfo) (list : FilterList) : Outcome Unit :=
  let inserted := monitorDevices.loopInserted s list 0 []
  let removed := monitorDevices.loopRemoved s list 0 []
  let e₁ : List Emission :=
    if inserted.length > 0 then [{ signal := Signal.deviceInserted inserted, seen := s }] else []
  let e₂ : List Emission :=
    if removed.length > 0 then [{ signal := Signal.deviceRemoved removed, seen := s }] else []
  { ret := (), state := { s with m_system_list := list }, emitted := e₁ ++ e₂ }

end QUsbInfo

/-! ## The hotplug callback (lines 8-56) and the timer slot (lines 81-95)

libusb is an external library. What the code uses of it is modelled as
follows: the descriptor of the device of an event gives `idVendor` and
`idProduct`; `libusb_open` returns a code and stores a non-null handle
through its out-parameter when (and only when) it returns `LIBUSB_SUCCESS`.
A handle pointer is `Option Nat`, `none` being `Q_NULLPTR`. -/

/-- `LIBUSB_SUCCESS` of `libusb.h`. -/
def LIBUSB_SUCCESS : Int := 0

/-- `LIBUSB_HOTPLUG_EVENT_DEVICE_ARRIVED` of `libusb.h`. -/
def LIBUSB_HOTPLUG_EVENT_DEVICE_ARRIVED : Int := 1

/-- `LIBUSB_HOTPLUG_EVENT_DEVICE_LEFT` of `libusb.h`. -/
def LIBUSB_HOTPLUG_EVENT_DEVICE_LEFT : Int := 2

/-- The two descriptor fields that the callback reads. -/
structure libusb_device_descriptor where
  idVendor : Nat
  idProduct : Nat
deriving DecidableEq, Repr

/-- A device as the callback sees it: its descriptor. -/
structure libusb_device where
  desc : libusb_device_descriptor
deriving DecidableEq, Repr

/-- The answer of the driver to one `libusb_open` call: the return code and
the handle it would store on success. -/
structure OpenReply where
  rc : Int
  dev_handle : Nat
deriving DecidableEq, Repr

/-- The call `libusb_open(device, &handle)`: the return code and the value of
`handle` afterwards. -/
def libusb_open (reply : OpenReply) (handle : Option Nat) : Int × Option Nat :=
  if reply.rc = LIBUSB_SUCCESS then (reply.rc, some reply.dev_handle) else (reply.rc, handle)

/-- What one run of the callback leaves behind: the value returned to the
driver, the function-static `handle`, the manager object and the signals
emitted through it. -/
structure HotplugOutcome where
  ret : Int
  handle : Option Nat
  manager : QUsbInfo
  emitted : List Emission
deriving DecidableEq, Repr

/-- `hotplugCallback` (lines 10-56). `handle` is the function-static
variable of line 15, `manager` the object behind `user_data`. -/
def hotplugCallback (handle : Option Nat) (manager : QUsbInfo) (device : libusb_device)
    (event : Int) (reply : OpenReply) : HotplugOutcome :=
  let desc := device.desc
  if event = LIBUSB_HOTPLUG_EVENT_DEVICE_ARRIVED then
    let opened := libusb_open reply handle
    if LIBUSB_SUCCESS ≠ opened.1 then
      { ret := -1, handle := opened.2, manager := manager, emitted := [] }
    else
      let dev : QUsbDevice.Filter := { vid := desc.idVendor, pid := desc.idProduct }
      let device_list : FilterList := [] ++ [dev]
      { ret := 0, handle := opened.2, manager := manager
        emitted := [{ signal := Signal.deviceInserted device_list, seen := manager }] }
  else if event = LIBUSB_HOTPLUG_EVENT_DEVICE_LEFT then
    if handle.isSome then
      let dev : QUsbDevice.Filter := { vid := desc.idVendor, pid := desc.idProduct }
      let device_list : FilterList := [] ++ [dev]
      { ret := 0, handle := none, manager := manager
        emitted := [{ signal := Signal.deviceRemoved device_list, seen := manager }] }
    else
      { ret := 0, handle := handle, manager := manager, emitted := [] }
  else
    { ret := -1, handle := handle, manager := manager, emitted := [] }

/-- One invocation of the registered callback by the driver. -/
structure HotplugEvent where
  device : libusb_device
  event : Int
  reply : OpenReply
deriving DecidableEq, Repr

/-- The event pump `libusb_handle_events_timeout_completed` as far as this
object is concerned: `pending` lists the invocations of the registered
callback that the driver makes during the call, in order. The returned `ret`
is that of the last invocation (0 when there is none). -/
def handleEvents (handle : Option Nat) (manager : QUsbInfo) :
    List HotplugEvent → HotplugOutcome
  | [] => { ret := 0, handle := handle, manager := manager, emitted := [] }
  | e :: rest =>
    let r := hotplugCallback handle manager e.device e.event e.reply
    let r' := handleEvents r.handle r.manager rest
    { r' with emitted := r.emitted ++ r'.emitted }

/-- `QUsbInfo::checkDevices` (lines 81-95). `pending` is what the driver
delivers if the pump is run, `devices` what `QUsbDevice::devices()` returns
if the bus is enumerated. -/
def QUsbInfo.checkDevices (handle : Option Nat) (s : QUsbInfo) (pending : List HotplugEvent)
    (devices : FilterList) : HotplugOutcome :=
  if s.m_has_hotplug then
    handleEvents handle s pending
  else
    let r := QUsbInfo.monitorDevices s devices
    { ret := 0, handle := handle, manager := r.state, emitted := r.emitted }

/-- A run of `monitorDevices` over the lists `ls`, one call after the other:
the final object state and all emissions in order. -/
def monitorDevicesSeq (s : QUsbInfo) : List FilterList → QUsbInfo × List Emission
  | [] => (s, [])
  | l :: ls =>
    let r := QUsbInfo.monitorDevices s l
    let rest := monitorDevicesSeq r.state ls
    (rest.1, r.emitted ++ rest.2)

/-! ## Vocabulary of the specification -/

/-- Two filters name the same identity: same vid and same pid. -/
def sameIdentity (a b : QUsbDevice.Filter) : Prop := a.vid = b.vid ∧ a.pid = b.pid

instance (a b : QUsbDevice.Filter) : Decidable (sameIdentity a b) :=
  inferInstanceAs (Decidable (a.vid = b.vid ∧ a.pid = b.pid))

/-- Some entry of `l` has the identity of `f`. -/
def hasIdentity (f : QUsbDevice.Filter) (l : FilterList) : Prop := ∃ e ∈ l, sameIdentity e f

instance (f : QUsbDevice.Filter) (l : FilterList) : Decidable (hasIdentity f l) :=
  inferInstanceAs (Decidable (∃ e ∈ l, sameIdentity e f))

/-- The spec's difference `xs − ys`: the entries of `xs`, in their order, whose
identity no entry of `ys` has. -/
def listMinus (xs ys : FilterList) : FilterList :=
  xs.filter (fun x => decide (¬ hasIdentity x ys))

/-- The signals of a list of emissions, in order. -/
def signalsOf (es : List Emission) : List Signal := es.map Emission.signal

/-- The scan that `findDevice.loop` performs, told over the part of the list
still ahead: `i` is the index of the head of that part. -/
def firstMatchFrom (f : QUsbDevice.Filter) : FilterList → Nat → Int
  | [], _ => -1
  | d :: rest, i => if d.pid = f.pid ∧ d.vid = f.vid then (i : Int) else firstMatchFrom f rest (i + 1)

/-- No two positions of `l` hold the same identity. -/
def distinctIdentities (l : FilterList) : Prop := l.Pairwise (fun a b => ¬ sameIdentity a b)

instance (l : FilterList) : Decidable (distinctIdentities l) :=
  inferInstanceAs (Decidable (l.Pairwise (fun a b => ¬ sameIdentity a b)))

/-- One call on the watch list: `addDevice(filter)` or `removeDevice(filter)`. -/
inductive WatchCall where
  | addDevice (filter : QUsbDevice.Filter)
  | removeDevice (filter : QUsbDevice.Filter)
deriving DecidableEq, Repr

/-- A run of `addDevice` and `removeDevice` calls, one after the other: the
object state after the last of them. -/
def watchCalls (s : QUsbInfo) : List WatchCall → QUsbInfo
  | [] => s
  | WatchCall.addDevice f :: rest => watchCalls (QUsbInfo.addDevice s f).state rest
  | WatchCall.removeDevice f :: rest => watchCalls (QUsbInfo.removeDevice s f).state rest

/-- How a loop run under a step budget and with checked indexing can fail. -/
inductive LoopFault where
  | outOfFuel
  | outOfRange
deriving DecidableEq, Repr

/-- The loop of `findDevice` (lines 191-197) once more, for the questions of
termination and of indexing: `fuel` bounds the number of evaluations of the
loop guard, and `list.at(i)` is a checked access that faults when `i` is not
an index of `list`. -/
def QUsbInfo.findDevice.checked (filter : QUsbDevice.Filter) (list : FilterList) :
    Nat → Nat → Except LoopFault Int
  | 0, _ => Except.error LoopFault.outOfFuel
  | fuel + 1, i =>
    if i < list.length then
      match list[i]? with
      | none => Except.error LoopFault.outOfRange
      | some d =>
        if d.pid = filter.pid ∧ d.vid = filter.vid then
          Except.ok (i : Int)
        else
          QUsbInfo.findDevice.checked filter list fuel (i + 1)
    else
      Except.ok (-1)

/-- The event is an arrival whose `libusb_open` succeeds. -/
def openedArrival (e : HotplugEvent) : Prop :=
  e.event = LIBUSB_HOTPLUG_EVENT_DEVICE_ARRIVED ∧ e.reply.rc = LIBUSB_SUCCESS

instance (e : HotplugEvent) : Decidable (openedArrival e) :=
  inferInstanceAs (Decidable (e.event = LIBUSB_HOTPLUG_EVENT_DEVICE_ARRIVED ∧
    e.reply.rc = LIBUSB_SUCCESS))

/-- The event is a departure. -/
def isDeparture (e : HotplugEvent) : Prop := e.event = LIBUSB_HOTPLUG_EVENT_DEVICE_LEFT

instance (e : HotplugEvent) : Decidable (isDeparture e) :=
  inferInstanceAs (Decidable (e.event = LIBUSB_HOTPLUG_EVENT_DEVICE_LEFT))

/-! ## Lemmas on the loops -/

theorem findDevice_loop_eq (f : QUsbDevice.Filter) (l : FilterList) :
    ∀ (n i : Nat), l.length - i = n →
      QUsbInfo.findDevice.loop f l i = firstMatchFrom f (l.drop i) i := by
  intro n
  induction n with
  | zero =>
    intro i h
    have hi : l.length ≤ i := by omega
    unfold QUsbInfo.findDevice.loop
    rw [dif_neg (by omega), List.drop_of_length_le hi]
    rfl
  | succ n ih =>
    intro i h
    have hi : i < l.length := by omega
    unfold QUsbInfo.findDevice.loop
    rw [dif_pos hi, List.drop_eq_getElem_cons hi]
    simp only [firstMatchFrom, List.get_eq_getElem]
    rw [ih (i + 1) (by omega)]

theorem findDevice_eq (f : QUsbDevice.Filter) (l : FilterList) :
    QUsbInfo.findDevice f l = firstMatchFrom f l 0 := by
  unfold QUsbInfo.findDevice
  rw [findDevice_loop_eq f l _ 0 rfl, List.drop_zero]

theorem firstMatchFrom_range (f : QUsbDevice.Filter) (l : FilterList) (i : Nat) :
    firstMatchFrom f l i = -1 ∨ ((i : Int) ≤ firstMatchFrom f l i ∧
      firstMatchFrom f l i < (i : Int) + l.length) := by
  induction l generalizing i with
  | nil => left; rfl
  | cons d rest ih =>
    unfold firstMatchFrom
    split
    · right; simp
    · rcases ih (i + 1) with h | h
      · left; exact h
      · right; simp at h ⊢; omega

theorem firstMatchFrom_neg_iff (f : QUsbDevice.Filter) (l : FilterList) (i : Nat) :
    firstMatchFrom f l i < 0 ↔ ¬ hasIdentity f l := by
  induction l generalizing i with
  | nil => simp [firstMatchFrom, hasIdentity]
  | cons d rest ih =>
    unfold firstMatchFrom
    split
    · rename_i h
      have : hasIdentity f (d :: rest) := ⟨d, by simp, h.2, h.1⟩
      simp [this]
    · rename_i h
      rw [ih (i + 1)]
      have hd : ¬ sameIdentity d f := fun hs => h ⟨hs.2, hs.1⟩
      simp [hasIdentity, hd]

theorem findDevice_neg_iff (f : QUsbDevice.Filter) (l : FilterList) :
    QUsbInfo.findDevice f l < 0 ↔ ¬ hasIdentity f l := by
  rw [findDevice_eq]; exact firstMatchFrom_neg_iff f l 0

theorem findDevice_range (f : QUsbDevice.Filter) (l : FilterList) :
    QUsbInfo.findDevice f l = -1 ∨
      (0 ≤ QUsbInfo.findDevice f l ∧ QUsbInfo.findDevice f l < l.length) := by
  rw [findDevice_eq]
  have := firstMatchFrom_range f l 0
  simpa using this

theorem findDevice_eq_neg_one_iff (f : QUsbDevice.Filter) (l : FilterList) :
    QUsbInfo.findDevice f l = -1 ↔ ¬ hasIdentity f l := by
  rw [← findDevice_neg_iff]
  rcases findDevice_range f l with h | h
  · simp [h]
  · constructor <;> intro h' <;> omega

theorem findDevice_nonneg_iff (f : QUsbDevice.Filter) (l : FilterList) :
    QUsbInfo.findDevice f l ≥ 0 ↔ hasIdentity f l := by
  have := findDevice_neg_iff f l
  constructor
  · intro h; by_contra hc; have := this.mpr hc; omega
  · intro h; by_contra hc; exact (this.mp (by omega)) h

theorem filter_missing_eq_listMinus (xs ys : FilterList) :
    xs.filter (fun f => decide (QUsbInfo.findDevice f ys < 0)) = listMinus xs ys := by
  unfold listMinus
  apply List.filter_congr
  intro x _
  simp only [findDevice_neg_iff]

theorem loopInserted_eq (s : QUsbInfo) (list : FilterList) :
    ∀ (n i : Nat) (acc : FilterList), list.length - i = n →
      QUsbInfo.monitorDevices.loopInserted s list i acc =
        acc ++ (list.drop i).filter (fun f => decide (QUsbInfo.findDevice f s.m_system_list < 0)) := by
  intro n
  induction n with
  | zero =>
    intro i acc h
    unfold QUsbInfo.monitorDevices.loopInserted
    rw [dif_neg (by omega), List.drop_of_length_le (by omega)]
    simp
  | succ n ih =>
    intro i acc h
    have hi : i < list.length := by omega
    unfold QUsbInfo.monitorDevices.loopInserted
    rw [dif_pos hi, List.drop_eq_getElem_cons hi]
    simp only [List.get_eq_getElem, List.filter_cons]
    split
    · rename_i hc
      rw [ih (i + 1) _ (by omega)]
      simp [hc]
    · rename_i hc
      rw [ih (i + 1) _ (by omega)]
      simp [hc]

theorem loopRemoved_eq (s : QUsbInfo) (list : FilterList) :
    ∀ (n i : Nat) (acc : FilterList), s.m_system_list.length - i = n →
      QUsbInfo.monitorDevices.loopRemoved s list i acc =
        acc ++ (s.m_system_list.drop i).filter (fun f => decide (QUsbInfo.findDevice f list < 0)) := by
  intro n
  induction n with
  | zero =>
    intro i acc h
    unfold QUsbInfo.monitorDevices.loopRemoved
    rw [dif_neg (by omega), List.drop_of_length_le (by omega)]
    simp
  | succ n ih =>
    intro i acc h
    have hi : i < s.m_system_list.length := by omega
    unfold QUsbInfo.monitorDevices.loopRemoved
    rw [dif_pos hi, List.drop_eq_getElem_cons hi]
    simp only [List.get_eq_getElem, List.filter_cons]
    split
    · rename_i hc
      rw [ih (i + 1) _ (by omega)]
      simp [hc]
    · rename_i hc
      rw [ih (i + 1) _ (by omega)]
      simp [hc]

theorem getPresentDevices_loop_eq (s : QUsbInfo) :
    ∀ (n i : Nat) (acc : FilterList), s.m_filter_list.length - i = n →
      QUsbInfo.getPresentDevices.loop s i acc =
        acc ++ (s.m_filter_list.drop i).filter
          (fun f => decide (QUsbInfo.findDevice f s.m_system_list < 0)) := by
  intro n
  induction n with
  | zero =>
    intro i acc h
    unfold QUsbInfo.getPresentDevices.loop
    rw [dif_neg (by omega), List.drop_of_length_le (by omega)]
    simp
  | succ n ih =>
    intro i acc h
    have hi : i < s.m_filter_list.length := by omega
    unfold QUsbInfo.getPresentDevices.loop
    rw [dif_pos hi, List.drop_eq_getElem_cons hi]
    simp only [List.get_eq_getElem, List.filter_cons]
    split
    · rename_i hc
      rw [ih (i + 1) _ (by omega)]
      simp [hc]
    · rename_i hc
      rw [ih (i + 1) _ (by omega)]
      simp [hc]

/-- The inserted list that `monitorDevices` builds is `list − m_system_list`. -/
theorem inserted_eq_listMinus (s : QUsbInfo) (list : FilterList) :
    QUsbInfo.monitorDevices.loopInserted s list 0 [] = listMinus list s.m_system_list := by
  rw [loopInserted_eq s list _ 0 [] rfl]
  simp [filter_missing_eq_listMinus]

/-- The removed list that `monitorDevices` builds is `m_system_list − list`. -/
theorem removed_eq_listMinus (s : QUsbInfo) (list : FilterList) :
    QUsbInfo.monitorDevices.loopRemoved s list 0 [] = listMinus s.m_system_list list := by
  rw [loopRemoved_eq s list _ 0 [] rfl]
  simp [filter_missing_eq_listMinus]

theorem getPresentDevices_ret_eq (s : QUsbInfo) :
    (QUsbInfo.getPresentDevices s).ret = listMinus s.m_filter_list s.m_system_list := by
  unfold QUsbInfo.getPresentDevices
  simp only
  rw [getPresentDevices_loop_eq s _ 0 [] rfl]
  simp [filter_missing_eq_listMinus]

theorem mem_listMinus (x : QUsbDevice.Filter) (xs ys : FilterList) :
    x ∈ listMinus xs ys ↔ x ∈ xs ∧ ¬ hasIdentity x ys := by
  simp [listMinus]

theorem listMinus_eq_nil_iff (xs ys : FilterList) :
    listMinus xs ys = [] ↔ ∀ x ∈ xs, hasIdentity x ys := by
  simp [listMinus, List.filter_eq_nil_iff]

theorem hasIdentity_of_mem (x : QUsbDevice.Filter) (xs : FilterList) (h : x ∈ xs) :
    hasIdentity x xs := ⟨x, h, rfl, rfl⟩

theorem listMinus_self (xs : FilterList) : listMinus xs xs = [] := by
  rw [listMinus_eq_nil_iff]
  exact fun x hx => hasIdentity_of_mem x xs hx

/-- The signals of one `monitorDevices` call, in terms of the two differences. -/
theorem monitorDevices_signals (s : QUsbInfo) (list : FilterList) :
    signalsOf (QUsbInfo.monitorDevices s list).emitted =
      (if listMinus list s.m_system_list = [] then []
        else [Signal.deviceInserted (listMinus list s.m_system_list)]) ++
      (if listMinus s.m_system_list list = [] then []
        else [Signal.deviceRemoved (listMinus s.m_system_list list)]) := by
  unfold QUsbInfo.monitorDevices
  simp only [inserted_eq_listMinus, removed_eq_listMinus, signalsOf, List.map_append]
  by_cases h₁ : listMinus list s.m_system_list = [] <;>
    by_cases h₂ : listMinus s.m_system_list list = [] <;>
    simp [h₁, h₂, List.length_pos]

theorem monitorDevices_state (s : QUsbInfo) (list : FilterList) :
    (QUsbInfo.monitorDevices s list).state = { s with m_system_list := list } := rfl

theorem isPresent_ret_iff (s : QUsbInfo) (f : QUsbDevice.Filter) :
    (QUsbInfo.isPresent s f).ret = true ↔ hasIdentity f s.m_system_list := by
  unfold QUsbInfo.isPresent
  simp only [decide_eq_true_eq]
  exact findDevice_nonneg_iff f s.m_system_list

theorem isPresent_ret_false (s : QUsbInfo) (f : QUsbDevice.Filter)
    (h : ¬ hasIdentity f s.m_system_list) : (QUsbInfo.isPresent s f).ret = false := by
  cases hb : (QUsbInfo.isPresent s f).ret
  · rfl
  · exact absurd ((isPresent_ret_iff s f).mp hb) h

/-! ## The claims -/

/-- C1. For every old snapshot `A = s.m_system_list` and every new list `B`,
`monitorDevices s B` emits `deviceInserted` exactly when some entry of `B` has
no entry of `A` with its vid and pid, then once, carrying `B − A`; after it
`deviceRemoved` exactly when some entry of `A` has no match in `B`, then once,
carrying `A − B`; nothing else is emitted, so nothing at all when `A` and `B`
hold the same identities, in whatever order. -/
theorem monitorDevices_emits_exact_diffs (s : QUsbInfo) (B : FilterList) :
    signalsOf (QUsbInfo.monitorDevices s B).emitted =
        (if ∃ b ∈ B, ¬ hasIdentity b s.m_system_list
          then [Signal.deviceInserted (listMinus B s.m_system_list)] else []) ++
        (if ∃ a ∈ s.m_system_list, ¬ hasIdentity a B
          then [Signal.deviceRemoved (listMinus s.m_system_list B)] else [])
    ∧ (((∀ b ∈ B, hasIdentity b s.m_system_list) ∧ (∀ a ∈ s.m_system_list, hasIdentity a B)) →
        (QUsbInfo.monitorDevices s B).emitted = []) := by
  have key := monitorDevices_signals s B
  have e₁ : (listMinus B s.m_system_list = []) ↔ ¬ ∃ b ∈ B, ¬ hasIdentity b s.m_system_list := by
    rw [listMinus_eq_nil_iff]; push_neg; rfl
  have e₂ : (listMinus s.m_system_list B = []) ↔ ¬ ∃ a ∈ s.m_system_list, ¬ hasIdentity a B := by
    rw [listMinus_eq_nil_iff]; push_neg; rfl
  refine ⟨?_, ?_⟩
  · rw [key]
    by_cases h₁ : ∃ b ∈ B, ¬ hasIdentity b s.m_system_list <;>
      by_cases h₂ : ∃ a ∈ s.m_system_list, ¬ hasIdentity a B
    · rw [if_neg (fun h => (e₁.mp h) h₁), if_neg (fun h => (e₂.mp h) h₂), if_pos h₁, if_pos h₂]
    · rw [if_neg (fun h => (e₁.mp h) h₁), if_pos (e₂.mpr h₂), if_pos h₁, if_neg h₂]
    · rw [if_pos (e₁.mpr h₁), if_neg (fun h => (e₂.mp h) h₂), if_neg h₁, if_pos h₂]
    · rw [if_pos (e₁.mpr h₁), if_pos (e₂.mpr h₂), if_neg h₁, if_neg h₂]
  · rintro ⟨hB, hA⟩
    have h₁ := (listMinus_eq_nil_iff B s.m_system_list).mpr hB
    have h₂ := (listMinus_eq_nil_iff s.m_system_list B).mpr hA
    have : signalsOf (QUsbInfo.monitorDevices s B).emitted = [] := by
      rw [key, if_pos h₁, if_pos h₂]; rfl
    simpa [signalsOf] using this

/-- C1, the two scenarios of the specification and one reordering: from the
empty snapshot the list `[(0x0483,0x3748)]` gives one `deviceInserted` of that
list and no `deviceRemoved`; from the snapshot `[(0x0483,0x3748)]` the empty
list gives one `deviceRemoved` of that list; a reordered list gives nothing. -/
theorem monitorDevices_emits_exact_diffs_witness :
    signalsOf (QUsbInfo.monitorDevices ⟨[], [], false⟩ [{ vid := 0x0483, pid := 0x3748 }]).emitted
        = [Signal.deviceInserted [{ vid := 0x0483, pid := 0x3748 }]]
    ∧ signalsOf (QUsbInfo.monitorDevices ⟨[], [{ vid := 0x0483, pid := 0x3748 }], false⟩ []).emitted
        = [Signal.deviceRemoved [{ vid := 0x0483, pid := 0x3748 }]]
    ∧ (QUsbInfo.monitorDevices ⟨[], [⟨1, 2⟩, ⟨3, 4⟩], false⟩ [⟨3, 4⟩, ⟨1, 2⟩]).emitted = [] :=
  ⟨(monitorDevices_emits_exact_diffs ⟨[], [], false⟩ [{ vid := 0x0483, pid := 0x3748 }]).1.trans (by decide),
   (monitorDevices_emits_exact_diffs ⟨[], [{ vid := 0x0483, pid := 0x3748 }], false⟩ []).1.trans (by decide),
   (monitorDevices_emits_exact_diffs ⟨[], [⟨1, 2⟩, ⟨3, 4⟩], false⟩ [⟨3, 4⟩, ⟨1, 2⟩]).2
     (by decide)⟩

/-- C2. After any run of `monitorDevices` calls the stored snapshot
`m_system_list` is the list passed to the last call, entry for entry, whatever
the starting state and whatever the calls emitted. -/
theorem monitorDevicesSeq_snapshot_is_last (s : QUsbInfo) (ls : List FilterList)
    (l : FilterList) :
    (monitorDevicesSeq s (ls ++ [l])).1.m_system_list = l := by
  induction ls generalizing s with
  | nil => rfl
  | cons x xs ih =>
    simp only [List.cons_append, monitorDevicesSeq]
    exact ih _

/-- C3. Calling `monitorDevices` twice in a row with the same list: on the
second call both difference lists are empty, nothing is emitted, and the
object state stays what the first call left. -/
theorem monitorDevices_twice_idempotent (s : QUsbInfo) (l : FilterList) :
    QUsbInfo.monitorDevices.loopInserted (QUsbInfo.monitorDevices s l).state l 0 [] = []
    ∧ QUsbInfo.monitorDevices.loopRemoved (QUsbInfo.monitorDevices s l).state l 0 [] = []
    ∧ (QUsbInfo.monitorDevices (QUsbInfo.monitorDevices s l).state l).emitted = []
    ∧ (QUsbInfo.monitorDevices (QUsbInfo.monitorDevices s l).state l).state
        = (QUsbInfo.monitorDevices s l).state := by
  have hs : (QUsbInfo.monitorDevices s l).state.m_system_list = l := rfl
  refine ⟨?_, ?_, ?_, ?_⟩
  · rw [inserted_eq_listMinus, hs, listMinus_self]
  · rw [removed_eq_listMinus, hs, listMinus_self]
  · have := monitorDevices_signals (QUsbInfo.monitorDevices s l).state l
    rw [hs, listMinus_self] at this
    simpa [signalsOf] using this
  · rfl

/-- C4. `addDevice s f` returns false and leaves the object (so the watch
list) as it was when some entry of the watch list has the vid and pid of `f`;
otherwise it returns true and the watch list becomes the old one with `f`
appended at the end, the other members unchanged. -/
theorem addDevice_rejects_duplicate_else_appends (s : QUsbInfo) (f : QUsbDevice.Filter) :
    (hasIdentity f s.m_filter_list →
        (QUsbInfo.addDevice s f).ret = false ∧ (QUsbInfo.addDevice s f).state = s)
    ∧ (¬ hasIdentity f s.m_filter_list →
        (QUsbInfo.addDevice s f).ret = true
        ∧ (QUsbInfo.addDevice s f).state = { s with m_filter_list := s.m_filter_list ++ [f] }) := by
  constructor
  · intro h
    have hne : ¬ QUsbInfo.findDevice f s.m_filter_list = -1 := by
      rw [findDevice_eq_neg_one_iff]; exact fun hc => hc h
    unfold QUsbInfo.addDevice
    rw [if_neg hne]
    exact ⟨rfl, rfl⟩
  · intro h
    have he : QUsbInfo.findDevice f s.m_filter_list = -1 :=
      (findDevice_eq_neg_one_iff f s.m_filter_list).mpr h
    unfold QUsbInfo.addDevice
    rw [if_pos he]
    exact ⟨rfl, rfl⟩

/-- C4 at concrete inputs: adding `(1,2)` to the watch list `[(1,2)]` is
refused and changes nothing; adding `(3,4)` to it returns true and gives
`[(1,2),(3,4)]`. -/
theorem addDevice_rejects_duplicate_else_appends_witness :
    ((QUsbInfo.addDevice ⟨[{ vid := 1, pid := 2 }], [], false⟩ { vid := 1, pid := 2 }).ret = false
      ∧ (QUsbInfo.addDevice ⟨[{ vid := 1, pid := 2 }], [], false⟩ { vid := 1, pid := 2 }).state
          = ⟨[{ vid := 1, pid := 2 }], [], false⟩)
    ∧ ((QUsbInfo.addDevice ⟨[{ vid := 1, pid := 2 }], [], false⟩ { vid := 3, pid := 4 }).ret = true
      ∧ (QUsbInfo.addDevice ⟨[{ vid := 1, pid := 2 }], [], false⟩ { vid := 3, pid := 4 }).state
          = ⟨[{ vid := 1, pid := 2 }, { vid := 3, pid := 4 }], [], false⟩) :=
  ⟨(addDevice_rejects_duplicate_else_appends
      ⟨[{ vid := 1, pid := 2 }], [], false⟩ { vid := 1, pid := 2 }).1 (by decide),
   (addDevice_rejects_duplicate_else_appends
      ⟨[{ vid := 1, pid := 2 }], [], false⟩ { vid := 3, pid := 4 }).2 (by decide)⟩

/-- C5. When no entry of the watch list has the vid and pid of `f`,
`removeDevice s f` returns true and leaves the object, so the watch list,
unchanged. -/
theorem removeDevice_absent_is_noop_success (s : QUsbInfo) (f : QUsbDevice.Filter)
    (h : ¬ hasIdentity f s.m_filter_list) :
    (QUsbInfo.removeDevice s f).ret = true ∧ (QUsbInfo.removeDevice s f).state = s := by
  have he : QUsbInfo.findDevice f s.m_filter_list = -1 :=
    (findDevice_eq_neg_one_iff f s.m_filter_list).mpr h
  unfold QUsbInfo.removeDevice
  simp only [he]
  exact ⟨rfl, rfl⟩

/-- C5 at a concrete input: removing `(5,6)` from the watch list
`[(1,2),(3,4)]`. -/
theorem removeDevice_absent_is_noop_success_witness :
    ¬ hasIdentity { vid := 5, pid := 6 } [{ vid := 1, pid := 2 }, { vid := 3, pid := 4 }]
    ∧ (QUsbInfo.removeDevice ⟨[{ vid := 1, pid := 2 }, { vid := 3, pid := 4 }], [], false⟩
          { vid := 5, pid := 6 }).ret = true
    ∧ (QUsbInfo.removeDevice ⟨[{ vid := 1, pid := 2 }, { vid := 3, pid := 4 }], [], false⟩
          { vid := 5, pid := 6 }).state
        = ⟨[{ vid := 1, pid := 2 }, { vid := 3, pid := 4 }], [], false⟩ :=
  ⟨by decide,
   removeDevice_absent_is_noop_success
     ⟨[{ vid := 1, pid := 2 }, { vid := 3, pid := 4 }], [], false⟩ { vid := 5, pid := 6 }
     (by decide)⟩

/-- C6. `isPresent s f` returns true if and only if some entry of the
snapshot `m_system_list` has the vid and the pid of `f`; the call leaves the
object (snapshot and watch list) unchanged and emits nothing. -/
theorem isPresent_iff_in_snapshot (s : QUsbInfo) (f : QUsbDevice.Filter) :
    ((QUsbInfo.isPresent s f).ret = true ↔
        ∃ e ∈ s.m_system_list, e.vid = f.vid ∧ e.pid = f.pid)
    ∧ (QUsbInfo.isPresent s f).state = s
    ∧ (QUsbInfo.isPresent s f).emitted = [] := by
  refine ⟨?_, rfl, rfl⟩
  exact isPresent_ret_iff s f

/-- C7. `getPresentDevices s` returns the entries of the watch list for which
`isPresent` is false, that is those whose vid and pid no entry of the
snapshot has, in watch-list order; no identity present in the snapshot occurs
in the result; the object is unchanged and nothing is emitted. -/
theorem getPresentDevices_returns_absent_watched (s : QUsbInfo) :
    (QUsbInfo.getPresentDevices s).ret
        = s.m_filter_list.filter (fun w => ! (QUsbInfo.isPresent s w).ret)
    ∧ (QUsbInfo.getPresentDevices s).ret = listMinus s.m_filter_list s.m_system_list
    ∧ (∀ w, hasIdentity w s.m_system_list → ¬ hasIdentity w (QUsbInfo.getPresentDevices s).ret)
    ∧ (QUsbInfo.getPresentDevices s).state = s
    ∧ (QUsbInfo.getPresentDevices s).emitted = [] := by
  have hret := getPresentDevices_ret_eq s
  refine ⟨?_, hret, ?_, rfl, rfl⟩
  · rw [hret]
    unfold listMinus
    apply List.filter_congr
    intro w _
    by_cases hw : hasIdentity w s.m_system_list
    · have hp : (QUsbInfo.isPresent s w).ret = true := (isPresent_ret_iff s w).mpr hw
      simp [hw, hp]
    · have hp : (QUsbInfo.isPresent s w).ret = false := isPresent_ret_false s w hw
      simp [hw, hp]
  · rintro w ⟨e, he, hew⟩ ⟨r, hr, hrw⟩
    rw [hret, mem_listMinus] at hr
    exact hr.2 ⟨e, he, hew.1.trans hrw.1.symm, hew.2.trans hrw.2.symm⟩

/-- C8. For a step `monitorDevices s B`: every filter carried by an emitted
`deviceInserted` is not present (`isPresent`) in the state before the step
and is present in the state after it; every filter carried by an emitted
`deviceRemoved` is present before the step and not present after it. -/
theorem monitorDevices_notified_transitions (s : QUsbInfo) (B : FilterList) :
    (∀ l, Signal.deviceInserted l ∈ signalsOf (QUsbInfo.monitorDevices s B).emitted →
      ∀ f ∈ l, (QUsbInfo.isPresent s f).ret = false
        ∧ (QUsbInfo.isPresent (QUsbInfo.monitorDevices s B).state f).ret = true)
    ∧ (∀ l, Signal.deviceRemoved l ∈ signalsOf (QUsbInfo.monitorDevices s B).emitted →
      ∀ f ∈ l, (QUsbInfo.isPresent s f).ret = true
        ∧ (QUsbInfo.isPresent (QUsbInfo.monitorDevices s B).state f).ret = false) := by
  have key := monitorDevices_signals s B
  have hpres := isPresent_ret_iff
  have hfalse := isPresent_ret_false
  have hafter : (QUsbInfo.monitorDevices s B).state.m_system_list = B := rfl
  constructor
  · intro l hl f hf
    rw [key] at hl
    have hl' : l = listMinus B s.m_system_list := by
      by_cases h₁ : listMinus B s.m_system_list = [] <;>
        by_cases h₂ : listMinus s.m_system_list B = [] <;>
        simp [h₁, h₂] at hl <;> exact hl
    rw [hl', mem_listMinus] at hf
    refine ⟨hfalse s f hf.2, (hpres _ f).mpr ?_⟩
    rw [hafter]
    exact hasIdentity_of_mem f B hf.1
  · intro l hl f hf
    rw [key] at hl
    have hl' : l = listMinus s.m_system_list B := by
      by_cases h₁ : listMinus B s.m_system_list = [] <;>
        by_cases h₂ : listMinus s.m_system_list B = [] <;>
        simp [h₁, h₂] at hl <;> exact hl
    rw [hl', mem_listMinus] at hf
    refine ⟨(hpres s f).mpr (hasIdentity_of_mem f _ hf.1), hfalse _ f ?_⟩
    rw [hafter]
    exact hf.2

/-- C8 at a concrete step: from the snapshot `[(1,2)]` the list `[(3,4)]`
emits `deviceInserted [(3,4)]` and `deviceRemoved [(1,2)]`; `(3,4)` is absent
before and present after, `(1,2)` present before and absent after. -/
theorem monitorDevices_notified_transitions_witness :
    ((QUsbInfo.isPresent ⟨[], [{ vid := 1, pid := 2 }], false⟩ { vid := 3, pid := 4 }).ret = false
      ∧ (QUsbInfo.isPresent
          (QUsbInfo.monitorDevices ⟨[], [{ vid := 1, pid := 2 }], false⟩
            [{ vid := 3, pid := 4 }]).state { vid := 3, pid := 4 }).ret = true)
    ∧ ((QUsbInfo.isPresent ⟨[], [{ vid := 1, pid := 2 }], false⟩ { vid := 1, pid := 2 }).ret = true
      ∧ (QUsbInfo.isPresent
          (QUsbInfo.monitorDevices ⟨[], [{ vid := 1, pid := 2 }], false⟩
            [{ vid := 3, pid := 4 }]).state { vid := 1, pid := 2 }).ret = false) :=
  ⟨(monitorDevices_notified_transitions ⟨[], [{ vid := 1, pid := 2 }], false⟩
      [{ vid := 3, pid := 4 }]).1 [{ vid := 3, pid := 4 }]
      (by rw [monitorDevices_signals]; decide) { vid := 3, pid := 4 } (by decide),
   (monitorDevices_notified_transitions ⟨[], [{ vid := 1, pid := 2 }], false⟩
      [{ vid := 3, pid := 4 }]).2 [{ vid := 1, pid := 2 }]
      (by rw [monitorDevices_signals]; decide) { vid := 1, pid := 2 } (by decide)⟩

/-- C9, the code at the failing inputs. With hotplug support and an empty
snapshot, the arrival of `(0x0483,0x3748)` whose open succeeds emits
`deviceInserted [(0x0483,0x3748)]` and returns 0, both when the callback is
run directly and when `checkDevices` pumps it, yet `isPresent` still answers
false for it afterwards. With the snapshot `[(0x0483,0x3748)]` and a tracked
handle, its departure emits `deviceRemoved [(0x0483,0x3748)]`, yet `isPresent`
still answers true. The callback never writes the manager. -/
theorem hotplugCallback_leaves_snapshot_stale :
    ((hotplugCallback none ⟨[], [], true⟩ ⟨⟨0x0483, 0x3748⟩⟩
        LIBUSB_HOTPLUG_EVENT_DEVICE_ARRIVED ⟨0, 7⟩).ret = 0
      ∧ signalsOf (hotplugCallback none ⟨[], [], true⟩ ⟨⟨0x0483, 0x3748⟩⟩
          LIBUSB_HOTPLUG_EVENT_DEVICE_ARRIVED ⟨0, 7⟩).emitted
          = [Signal.deviceInserted [{ vid := 0x0483, pid := 0x3748 }]]
      ∧ (QUsbInfo.isPresent (hotplugCallback none ⟨[], [], true⟩ ⟨⟨0x0483, 0x3748⟩⟩
          LIBUSB_HOTPLUG_EVENT_DEVICE_ARRIVED ⟨0, 7⟩).manager
          { vid := 0x0483, pid := 0x3748 }).ret = false)
    ∧ (signalsOf (QUsbInfo.checkDevices none ⟨[], [], true⟩
          [⟨⟨⟨0x0483, 0x3748⟩⟩, LIBUSB_HOTPLUG_EVENT_DEVICE_ARRIVED, ⟨0, 7⟩⟩]
          [{ vid := 0x0483, pid := 0x3748 }]).emitted
          = [Signal.deviceInserted [{ vid := 0x0483, pid := 0x3748 }]]
      ∧ (QUsbInfo.isPresent (QUsbInfo.checkDevices none ⟨[], [], true⟩
          [⟨⟨⟨0x0483, 0x3748⟩⟩, LIBUSB_HOTPLUG_EVENT_DEVICE_ARRIVED, ⟨0, 7⟩⟩]
          [{ vid := 0x0483, pid := 0x3748 }]).manager
          { vid := 0x0483, pid := 0x3748 }).ret = false)
    ∧ (signalsOf (hotplugCallback (some 7) ⟨[], [{ vid := 0x0483, pid := 0x3748 }], true⟩
          ⟨⟨0x0483, 0x3748⟩⟩ LIBUSB_HOTPLUG_EVENT_DEVICE_LEFT ⟨0, 7⟩).emitted
          = [Signal.deviceRemoved [{ vid := 0x0483, pid := 0x3748 }]]
      ∧ (QUsbInfo.isPresent
          (hotplugCallback (some 7) ⟨[], [{ vid := 0x0483, pid := 0x3748 }], true⟩
            ⟨⟨0x0483, 0x3748⟩⟩ LIBUSB_HOTPLUG_EVENT_DEVICE_LEFT ⟨0, 7⟩).manager
          { vid := 0x0483, pid := 0x3748 }).ret = true)
    ∧ (∀ (handle : Option Nat) (manager : QUsbInfo) (device : libusb_device) (event : Int)
        (reply : OpenReply), (hotplugCallback handle manager device event reply).manager = manager) := by
  refine ⟨⟨by decide, by decide, ?_⟩, ⟨by decide, ?_⟩, ⟨by decide, ?_⟩, ?_⟩
  · simp [QUsbInfo.isPresent, findDevice_eq, firstMatchFrom, hotplugCallback, libusb_open,
      LIBUSB_SUCCESS, LIBUSB_HOTPLUG_EVENT_DEVICE_ARRIVED]
  · simp [QUsbInfo.isPresent, findDevice_eq, firstMatchFrom, hotplugCallback, libusb_open,
      LIBUSB_SUCCESS, LIBUSB_HOTPLUG_EVENT_DEVICE_ARRIVED, QUsbInfo.checkDevices, handleEvents]
  · simp [QUsbInfo.isPresent, findDevice_eq, firstMatchFrom, hotplugCallback, libusb_open,
      LIBUSB_SUCCESS, LIBUSB_HOTPLUG_EVENT_DEVICE_ARRIVED, LIBUSB_HOTPLUG_EVENT_DEVICE_LEFT]
  · intro handle manager device event reply
    unfold hotplugCallback
    simp only
    split_ifs <;> rfl

/-- C10. For an arrival event whose `libusb_open` fails, `hotplugCallback`
emits nothing (neither `deviceInserted` nor `deviceRemoved`) and returns -1,
which is not 0; for an arrival whose open succeeds it returns 0. -/
theorem hotplugCallback_arrival_open_failure (handle : Option Nat) (manager : QUsbInfo)
    (device : libusb_device) (reply : OpenReply) :
    (reply.rc ≠ LIBUSB_SUCCESS →
        (hotplugCallback handle manager device LIBUSB_HOTPLUG_EVENT_DEVICE_ARRIVED reply).emitted = []
        ∧ (hotplugCallback handle manager device LIBUSB_HOTPLUG_EVENT_DEVICE_ARRIVED reply).ret = -1
        ∧ (hotplugCallback handle manager device LIBUSB_HOTPLUG_EVENT_DEVICE_ARRIVED reply).ret ≠ 0)
    ∧ (reply.rc = LIBUSB_SUCCESS →
        (hotplugCallback handle manager device LIBUSB_HOTPLUG_EVENT_DEVICE_ARRIVED reply).ret = 0) := by
  constructor
  · intro h
    have hne : LIBUSB_SUCCESS ≠ (libusb_open reply handle).1 := by
      unfold libusb_open; rw [if_neg h]; exact fun hc => h hc.symm
    unfold hotplugCallback
    simp [hne]
  · intro h
    have he : ¬ LIBUSB_SUCCESS ≠ (libusb_open reply handle).1 := by
      unfold libusb_open; rw [if_pos h]; exact fun hc => hc h.symm
    unfold hotplugCallback
    simp [he]

/-- C10 at concrete inputs: an arrival whose open answers -3 (access denied)
emits nothing and returns -1; one whose open answers 0 returns 0. -/
theorem hotplugCallback_arrival_open_failure_witness :
    ((hotplugCallback none ⟨[], [], true⟩ ⟨⟨0x0483, 0x3748⟩⟩
        LIBUSB_HOTPLUG_EVENT_DEVICE_ARRIVED ⟨-3, 0⟩).emitted = []
      ∧ (hotplugCallback none ⟨[], [], true⟩ ⟨⟨0x0483, 0x3748⟩⟩
        LIBUSB_HOTPLUG_EVENT_DEVICE_ARRIVED ⟨-3, 0⟩).ret = -1
      ∧ (hotplugCallback none ⟨[], [], true⟩ ⟨⟨0x0483, 0x3748⟩⟩
        LIBUSB_HOTPLUG_EVENT_DEVICE_ARRIVED ⟨-3, 0⟩).ret ≠ 0)
    ∧ (hotplugCallback none ⟨[], [], true⟩ ⟨⟨0x0483, 0x3748⟩⟩
        LIBUSB_HOTPLUG_EVENT_DEVICE_ARRIVED ⟨0, 7⟩).ret = 0 :=
  ⟨(hotplugCallback_arrival_open_failure none ⟨[], [], true⟩ ⟨⟨0x0483, 0x3748⟩⟩ ⟨-3, 0⟩).1
      (by decide),
   (hotplugCallback_arrival_open_failure none ⟨[], [], true⟩ ⟨⟨0x0483, 0x3748⟩⟩ ⟨0, 7⟩).2
      (by decide)⟩

/-! ## Further lemmas -/

theorem firstMatchFrom_least (f : QUsbDevice.Filter) (l : FilterList) (i : Nat) :
    firstMatchFrom f l i = -1 ∨
      ∃ (k : Nat) (d : QUsbDevice.Filter),
        firstMatchFrom f l i = ((i + k : Nat) : Int) ∧ l[k]? = some d ∧ sameIdentity d f ∧
        ∀ j, j < k → ∀ e, l[j]? = some e → ¬ sameIdentity e f := by
  induction l generalizing i with
  | nil => left; rfl
  | cons d rest ih =>
    unfold firstMatchFrom
    split
    · rename_i h
      right
      refine ⟨0, d, by simp, by simp, ⟨h.2, h.1⟩, ?_⟩
      intro j hj; omega
    · rename_i h
      rcases ih (i + 1) with h' | ⟨k, d', hk, hd', hs, hleast⟩
      · left; exact h'
      · right
        refine ⟨k + 1, d', ?_, by simpa using hd', hs, ?_⟩
        · rw [hk]; congr 1; omega
        · intro j hj e he
          cases j with
          | zero =>
            simp at he
            subst he
            exact fun hc => h ⟨hc.2, hc.1⟩
          | succ j =>
            simp at he
            exact hleast j (by omega) e he

/-- What `findDevice` returns: -1, or the least index whose entry has the
identity of `f`. -/
theorem findDevice_least (f : QUsbDevice.Filter) (l : FilterList) :
    QUsbInfo.findDevice f l = -1 ∨
      ∃ (k : Nat) (d : QUsbDevice.Filter),
        QUsbInfo.findDevice f l = (k : Int) ∧ l[k]? = some d ∧ sameIdentity d f ∧
        ∀ j, j < k → ∀ e, l[j]? = some e → ¬ sameIdentity e f := by
  rw [findDevice_eq]
  rcases firstMatchFrom_least f l 0 with h | ⟨k, d, hk, hd, hs, hl⟩
  · left; exact h
  · right; exact ⟨k, d, by simpa using hk, hd, hs, hl⟩

/-- When `k` is the least index whose entry has the identity of `f`,
`findDevice` returns `k`. -/
theorem findDevice_eq_of_least (f : QUsbDevice.Filter) (l : FilterList) (k : Nat)
    (d : QUsbDevice.Filter) (hd : l[k]? = some d) (hs : sameIdentity d f)
    (hleast : ∀ j, j < k → ∀ e, l[j]? = some e → ¬ sameIdentity e f) :
    QUsbInfo.findDevice f l = (k : Int) := by
  have hmem : hasIdentity f l := ⟨d, List.getElem?_mem hd, hs⟩
  rcases findDevice_least f l with h | ⟨k', d', hk', hd', hs', hl'⟩
  · exact absurd hmem ((findDevice_eq_neg_one_iff f l).mp h)
  · have h1 : ¬ k' < k := fun hlt => hleast k' hlt d' hd' hs'
    have h2 : ¬ k < k' := fun hlt => hl' k hlt d hd hs
    have : k' = k := by omega
    rw [hk', this]

theorem findDevice_checked_eq (f : QUsbDevice.Filter) (l : FilterList) :
    ∀ (fuel i : Nat), l.length - i < fuel →
      QUsbInfo.findDevice.checked f l fuel i = Except.ok (QUsbInfo.findDevice.loop f l i) := by
  intro fuel
  induction fuel with
  | zero => intro i h; omega
  | succ n ih =>
    intro i h
    unfold QUsbInfo.findDevice.checked QUsbInfo.findDevice.loop
    by_cases hi : i < l.length
    · rw [if_pos hi, dif_pos hi, List.getElem?_eq_getElem hi]
      simp only [List.get_eq_getElem]
      split
      · rfl
      · exact ih (i + 1) (by omega)
    · rw [if_neg hi, dif_neg hi]

theorem distinctIdentities_append_of_absent (l : FilterList) (f : QUsbDevice.Filter)
    (hl : distinctIdentities l) (hf : ¬ hasIdentity f l) : distinctIdentities (l ++ [f]) := by
  unfold distinctIdentities at hl ⊢
  rw [List.pairwise_append]
  refine ⟨hl, List.pairwise_singleton _ _, ?_⟩
  intro a ha b hb hab
  rw [List.mem_singleton] at hb
  subst hb
  exact hf ⟨a, ha, hab⟩

theorem distinctIdentities_eraseIdx (l : FilterList) (k : Nat) (hl : distinctIdentities l) :
    distinctIdentities (l.eraseIdx k) :=
  List.Pairwise.sublist (List.eraseIdx_sublist l k) hl

theorem addDevice_keeps_distinct (s : QUsbInfo) (f : QUsbDevice.Filter)
    (h : distinctIdentities s.m_filter_list) :
    distinctIdentities (QUsbInfo.addDevice s f).state.m_filter_list := by
  unfold QUsbInfo.addDevice
  split
  · rename_i he
    exact distinctIdentities_append_of_absent _ f h ((findDevice_eq_neg_one_iff f _).mp he)
  · exact h

theorem removeDevice_keeps_distinct (s : QUsbInfo) (f : QUsbDevice.Filter)
    (h : distinctIdentities s.m_filter_list) :
    distinctIdentities (QUsbInfo.removeDevice s f).state.m_filter_list := by
  unfold QUsbInfo.removeDevice
  simp only
  split
  · exact distinctIdentities_eraseIdx _ _ h
  · exact h

theorem watchCalls_keeps_distinct (calls : List WatchCall) :
    ∀ (s : QUsbInfo), distinctIdentities s.m_filter_list →
      distinctIdentities (watchCalls s calls).m_filter_list := by
  induction calls with
  | nil => intro s h; exact h
  | cons c rest ih =>
    intro s h
    cases c with
    | addDevice f => exact ih _ (addDevice_keeps_distinct s f h)
    | removeDevice f => exact ih _ (removeDevice_keeps_distinct s f h)

theorem distinctIdentities_positions (l : FilterList) (h : distinctIdentities l)
    (i j : Nat) (a b : QUsbDevice.Filter) (hij : i ≠ j) (ha : l[i]? = some a)
    (hb : l[j]? = some b) : ¬ sameIdentity a b := by
  unfold distinctIdentities at h
  rw [List.pairwise_iff_getElem] at h
  obtain ⟨hi, rfl⟩ := List.getElem?_eq_some.mp ha
  obtain ⟨hj, rfl⟩ := List.getElem?_eq_some.mp hb
  rcases Nat.lt_or_gt_of_ne hij with hlt | hgt
  · exact h i j hi hj hlt
  · intro hc
    exact h j i hj hi hgt ⟨hc.1.symm, hc.2.symm⟩

/-! ## The claims, continued -/

/-- C11. `addDevice` and `removeDevice` change only the watch list: after
either call the snapshot `m_system_list` (and the hotplug flag) is what it was
before, and no signal is emitted. -/
theorem addDevice_removeDevice_frame (s : QUsbInfo) (f : QUsbDevice.Filter) :
    ((QUsbInfo.addDevice s f).state.m_system_list = s.m_system_list
      ∧ (QUsbInfo.addDevice s f).state.m_has_hotplug = s.m_has_hotplug
      ∧ (QUsbInfo.addDevice s f).emitted = [])
    ∧ ((QUsbInfo.removeDevice s f).state.m_system_list = s.m_system_list
      ∧ (QUsbInfo.removeDevice s f).state.m_has_hotplug = s.m_has_hotplug
      ∧ (QUsbInfo.removeDevice s f).emitted = []) := by
  constructor
  · unfold QUsbInfo.addDevice
    split <;> exact ⟨rfl, rfl, rfl⟩
  · unfold QUsbInfo.removeDevice
    simp only
    split <;> exact ⟨rfl, rfl, rfl⟩

/-- C12. Starting from the empty watch list, after every finite run of
`addDevice` and `removeDevice` calls with arbitrary filters, no two distinct
positions of `m_filter_list` hold entries with the same vid and the same
pid. -/
theorem watch_list_never_holds_duplicates (sys : FilterList) (hp : Bool)
    (calls : List WatchCall) :
    distinctIdentities (watchCalls ⟨[], sys, hp⟩ calls).m_filter_list
    ∧ ∀ (i j : Nat) (a b : QUsbDevice.Filter), i ≠ j →
        (watchCalls ⟨[], sys, hp⟩ calls).m_filter_list[i]? = some a →
        (watchCalls ⟨[], sys, hp⟩ calls).m_filter_list[j]? = some b →
        ¬ (a.vid = b.vid ∧ a.pid = b.pid) := by
  have h := watchCalls_keeps_distinct calls ⟨[], sys, hp⟩ List.Pairwise.nil
  exact ⟨h, fun i j a b hij ha hb => distinctIdentities_positions _ h i j a b hij ha hb⟩

/-- C12 on a concrete run from the empty watch list: add `(1,2)`, add `(1,2)`
again (refused), add `(3,4)`, remove `(3,4)`, add `(3,4)`, remove `(1,2)`
(which sits at position zero and stays). The watch list ends as
`[(1,2),(3,4)]`, and its positions 0 and 1 hold different identities. -/
theorem watch_list_never_holds_duplicates_witness :
    (watchCalls ⟨[], [], false⟩
        [WatchCall.addDevice { vid := 1, pid := 2 }, WatchCall.addDevice { vid := 1, pid := 2 },
         WatchCall.addDevice { vid := 3, pid := 4 }, WatchCall.removeDevice { vid := 3, pid := 4 },
         WatchCall.addDevice { vid := 3, pid := 4 },
         WatchCall.removeDevice { vid := 1, pid := 2 }]).m_filter_list
      = [{ vid := 1, pid := 2 }, { vid := 3, pid := 4 }]
    ∧ distinctIdentities (watchCalls ⟨[], [], false⟩
        [WatchCall.addDevice { vid := 1, pid := 2 }, WatchCall.addDevice { vid := 1, pid := 2 },
         WatchCall.addDevice { vid := 3, pid := 4 }, WatchCall.removeDevice { vid := 3, pid := 4 },
         WatchCall.addDevice { vid := 3, pid := 4 },
         WatchCall.removeDevice { vid := 1, pid := 2 }]).m_filter_list :=
  ⟨by simp [watchCalls, QUsbInfo.addDevice, QUsbInfo.removeDevice, findDevice_eq, firstMatchFrom],
   (watch_list_never_holds_duplicates [] false _).1⟩

/-- C13. `removeDevice s f` does not remove a match at position zero: when
the first entry of the watch list has the vid and pid of `f`, the call returns
true and leaves the object unchanged, and `f` is still found (at index 0)
afterwards. When the first matching entry is at an index `i ≥ 1`, the call
returns true and the watch list becomes the old one with the entry at `i`
deleted, the other members unchanged. -/
theorem removeDevice_skips_position_zero (s : QUsbInfo) (f : QUsbDevice.Filter) :
    (∀ (d : QUsbDevice.Filter) (rest : FilterList), s.m_filter_list = d :: rest →
        (d.vid = f.vid ∧ d.pid = f.pid) →
        (QUsbInfo.removeDevice s f).ret = true
        ∧ (QUsbInfo.removeDevice s f).state = s
        ∧ QUsbInfo.findDevice f (QUsbInfo.removeDevice s f).state.m_filter_list = 0
        ∧ hasIdentity f (QUsbInfo.removeDevice s f).state.m_filter_list)
    ∧ (∀ (i : Nat) (d : QUsbDevice.Filter), 1 ≤ i → s.m_filter_list[i]? = some d →
        (d.vid = f.vid ∧ d.pid = f.pid) →
        (∀ j, j < i → ∀ e, s.m_filter_list[j]? = some e → ¬ (e.vid = f.vid ∧ e.pid = f.pid)) →
        (QUsbInfo.removeDevice s f).ret = true
        ∧ (QUsbInfo.removeDevice s f).state
            = { s with m_filter_list := s.m_filter_list.eraseIdx i }) := by
  constructor
  · intro d rest hW hd
    have h0 : QUsbInfo.findDevice f s.m_filter_list = ((0 : Nat) : Int) :=
      findDevice_eq_of_least f s.m_filter_list 0 d (by rw [hW]; simp) hd
        (fun j hj => absurd hj (Nat.not_lt_zero j))
    have hstate : (QUsbInfo.removeDevice s f).state = s := by
      unfold QUsbInfo.removeDevice
      simp [h0]
    have hret : (QUsbInfo.removeDevice s f).ret = true := by
      unfold QUsbInfo.removeDevice
      simp [h0]
    refine ⟨hret, hstate, ?_, ?_⟩
    · rw [hstate]; simpa using h0
    · rw [hstate, hW]; exact ⟨d, by simp, hd⟩
  · intro i d hi hd hs hleast
    have hk : QUsbInfo.findDevice f s.m_filter_list = (i : Int) :=
      findDevice_eq_of_least f s.m_filter_list i d hd hs hleast
    have hpos : (i : Int) > 0 := by omega
    unfold QUsbInfo.removeDevice
    simp [hk, hpos]

/-- C13 at concrete inputs, on the watch list `[(1,2),(3,4),(5,6)]`: removing
`(1,2)` (position zero) returns true and changes nothing; removing `(3,4)`
(position one) returns true and leaves `[(1,2),(5,6)]`. -/
theorem removeDevice_skips_position_zero_witness :
    ((QUsbInfo.removeDevice
        ⟨[{ vid := 1, pid := 2 }, { vid := 3, pid := 4 }, { vid := 5, pid := 6 }], [], false⟩
        { vid := 1, pid := 2 }).ret = true
      ∧ (QUsbInfo.removeDevice
        ⟨[{ vid := 1, pid := 2 }, { vid := 3, pid := 4 }, { vid := 5, pid := 6 }], [], false⟩
        { vid := 1, pid := 2 }).state.m_filter_list
          = [{ vid := 1, pid := 2 }, { vid := 3, pid := 4 }, { vid := 5, pid := 6 }])
    ∧ ((QUsbInfo.removeDevice
        ⟨[{ vid := 1, pid := 2 }, { vid := 3, pid := 4 }, { vid := 5, pid := 6 }], [], false⟩
        { vid := 3, pid := 4 }).ret = true
      ∧ (QUsbInfo.removeDevice
        ⟨[{ vid := 1, pid := 2 }, { vid := 3, pid := 4 }, { vid := 5, pid := 6 }], [], false⟩
        { vid := 3, pid := 4 }).state.m_filter_list
          = [{ vid := 1, pid := 2 }, { vid := 5, pid := 6 }]) := by
  have h0 := (removeDevice_skips_position_zero
    ⟨[{ vid := 1, pid := 2 }, { vid := 3, pid := 4 }, { vid := 5, pid := 6 }], [], false⟩
    { vid := 1, pid := 2 }).1 { vid := 1, pid := 2 }
    [{ vid := 3, pid := 4 }, { vid := 5, pid := 6 }] rfl (by decide)
  have h1 := (removeDevice_skips_position_zero
    ⟨[{ vid := 1, pid := 2 }, { vid := 3, pid := 4 }, { vid := 5, pid := 6 }], [], false⟩
    { vid := 3, pid := 4 }).2 1 { vid := 3, pid := 4 } (by decide) rfl (by decide)
    (by
      intro j hj e he
      have hj0 : j = 0 := by omega
      subst hj0
      simp at he
      subst he
      decide)
  exact ⟨⟨h0.1, by rw [h0.2.1]⟩, ⟨h1.1, by rw [h1.2]; rfl⟩⟩

/-! ## Lemmas on the emissions of `monitorDevices` -/

/-- The emissions of one `monitorDevices` call: each carries the state the
call started from. -/
theorem monitorDevices_emitted (s : QUsbInfo) (list : FilterList) :
    (QUsbInfo.monitorDevices s list).emitted =
      (if listMinus list s.m_system_list = [] then []
        else [{ signal := Signal.deviceInserted (listMinus list s.m_system_list), seen := s }]) ++
      (if listMinus s.m_system_list list = [] then []
        else [{ signal := Signal.deviceRemoved (listMinus s.m_system_list list), seen := s }]) := by
  unfold QUsbInfo.monitorDevices
  simp only [inserted_eq_listMinus, removed_eq_listMinus]
  by_cases h₁ : listMinus list s.m_system_list = [] <;>
    by_cases h₂ : listMinus s.m_system_list list = [] <;>
    simp [h₁, h₂, List.length_pos]

theorem monitorDevices_emitted_seen (s : QUsbInfo) (list : FilterList) (e : Emission)
    (he : e ∈ (QUsbInfo.monitorDevices s list).emitted) :
    e.seen = s ∧ (e.signal = Signal.deviceInserted (listMinus list s.m_system_list) ∨
      e.signal = Signal.deviceRemoved (listMinus s.m_system_list list)) := by
  rw [monitorDevices_emitted] at he
  by_cases h₁ : listMinus list s.m_system_list = [] <;>
    by_cases h₂ : listMinus s.m_system_list list = [] <;>
    simp [h₁, h₂] at he
  · subst he; exact ⟨rfl, Or.inr rfl⟩
  · subst he; exact ⟨rfl, Or.inl rfl⟩
  · rcases he with he | he
    · subst he; exact ⟨rfl, Or.inl rfl⟩
    · subst he; exact ⟨rfl, Or.inr rfl⟩

theorem inserted_of_mem_signals (s : QUsbInfo) (list l : FilterList)
    (h : Signal.deviceInserted l ∈ signalsOf (QUsbInfo.monitorDevices s list).emitted) :
    l = listMinus list s.m_system_list := by
  rw [monitorDevices_signals] at h
  by_cases h₁ : listMinus list s.m_system_list = [] <;>
    by_cases h₂ : listMinus s.m_system_list list = [] <;>
    simp [h₁, h₂] at h <;> exact h

theorem removed_of_mem_signals (s : QUsbInfo) (list l : FilterList)
    (h : Signal.deviceRemoved l ∈ signalsOf (QUsbInfo.monitorDevices s list).emitted) :
    l = listMinus s.m_system_list list := by
  rw [monitorDevices_signals] at h
  by_cases h₁ : listMinus list s.m_system_list = [] <;>
    by_cases h₂ : listMinus s.m_system_list list = [] <;>
    simp [h₁, h₂] at h <;> exact h

theorem distinctIdentities_listMinus (xs ys : FilterList) (h : distinctIdentities xs) :
    distinctIdentities (listMinus xs ys) :=
  List.Pairwise.sublist (List.filter_sublist xs) h

theorem count_listMinus (xs ys : FilterList) (f : QUsbDevice.Filter)
    (hf : f ∈ listMinus xs ys) : (listMinus xs ys).count f = xs.count f := by
  have hp : ¬ hasIdentity f ys := ((mem_listMinus f xs ys).mp hf).2
  unfold listMinus
  exact List.count_filter (by simpa using hp)

/-! ## The claims on the notifications -/

/-- C14 as stated fails. From the snapshot `[(1,2)]` the list `[(3,4)]` makes
`monitorDevices` emit `deviceInserted [(3,4)]` and `deviceRemoved [(1,2)]`,
both while the object still holds the snapshot `[(1,2)]`: at that moment
`isPresent` answers false for the inserted `(3,4)` and true for the removed
`(1,2)`. So it is not the case that every emission sees the snapshot equal to
the new list, the inserted identities present and the removed ones absent. -/
theorem monitorDevices_emits_before_update_counterexample :
    (QUsbInfo.monitorDevices ⟨[], [{ vid := 1, pid := 2 }], false⟩
        [{ vid := 3, pid := 4 }]).emitted
      = [{ signal := Signal.deviceInserted [{ vid := 3, pid := 4 }],
           seen := ⟨[], [{ vid := 1, pid := 2 }], false⟩ },
         { signal := Signal.deviceRemoved [{ vid := 1, pid := 2 }],
           seen := ⟨[], [{ vid := 1, pid := 2 }], false⟩ }]
    ∧ (QUsbInfo.isPresent ⟨[], [{ vid := 1, pid := 2 }], false⟩ { vid := 3, pid := 4 }).ret = false
    ∧ (QUsbInfo.isPresent ⟨[], [{ vid := 1, pid := 2 }], false⟩ { vid := 1, pid := 2 }).ret = true
    ∧ ¬ (∀ e ∈ (QUsbInfo.monitorDevices ⟨[], [{ vid := 1, pid := 2 }], false⟩
            [{ vid := 3, pid := 4 }]).emitted,
          e.seen.m_system_list = [{ vid := 3, pid := 4 }]
          ∧ (∀ l, e.signal = Signal.deviceInserted l →
              ∀ f ∈ l, (QUsbInfo.isPresent e.seen f).ret = true)
          ∧ (∀ l, e.signal = Signal.deviceRemoved l →
              ∀ f ∈ l, (QUsbInfo.isPresent e.seen f).ret = false)) := by
  have hem : (QUsbInfo.monitorDevices ⟨[], [{ vid := 1, pid := 2 }], false⟩
        [{ vid := 3, pid := 4 }]).emitted
      = [{ signal := Signal.deviceInserted [{ vid := 3, pid := 4 }],
           seen := ⟨[], [{ vid := 1, pid := 2 }], false⟩ },
         { signal := Signal.deviceRemoved [{ vid := 1, pid := 2 }],
           seen := ⟨[], [{ vid := 1, pid := 2 }], false⟩ }] := by
    rw [monitorDevices_emitted]; decide
  refine ⟨hem, ?_, ?_, ?_⟩
  · exact isPresent_ret_false _ _ (by decide)
  · exact (isPresent_ret_iff _ _).mpr (by decide)
  · intro h
    rw [hem] at h
    have h' := (h _ (List.mem_cons_self _ _)).1
    exact absurd h' (by decide)

/-- C14 as amended. Every emission of `monitorDevices s B` happens while the
object is still in the state `s` the call started from, so with the old
snapshot: at that moment `isPresent` answers false for every filter of an
emitted `deviceInserted` and true for every filter of an emitted
`deviceRemoved`. The snapshot is `B` in the state the call returns. -/
theorem monitorDevices_emits_before_update (s : QUsbInfo) (B : FilterList) :
    (∀ e ∈ (QUsbInfo.monitorDevices s B).emitted,
        e.seen = s
        ∧ (∀ l, e.signal = Signal.deviceInserted l →
            ∀ f ∈ l, (QUsbInfo.isPresent e.seen f).ret = false)
        ∧ (∀ l, e.signal = Signal.deviceRemoved l →
            ∀ f ∈ l, (QUsbInfo.isPresent e.seen f).ret = true))
    ∧ (QUsbInfo.monitorDevices s B).state.m_system_list = B := by
  refine ⟨?_, rfl⟩
  intro e he
  obtain ⟨hseen, hsig⟩ := monitorDevices_emitted_seen s B e he
  refine ⟨hseen, ?_, ?_⟩
  · intro l hl f hf
    rw [hseen]
    rcases hsig with h | h
    · rw [h] at hl
      injection hl with hl
      rw [← hl, mem_listMinus] at hf
      exact isPresent_ret_false s f hf.2
    · rw [h] at hl; cases hl
  · intro l hl f hf
    rw [hseen]
    rcases hsig with h | h
    · rw [h] at hl; cases hl
    · rw [h] at hl
      injection hl with hl
      rw [← hl, mem_listMinus] at hf
      exact (isPresent_ret_iff s f).mpr (hasIdentity_of_mem f _ hf.1)

/-- C14 as amended, at a concrete step: from the snapshot `[(1,2)]` with the
list `[(3,4)]`, the `deviceInserted [(3,4)]` emission sees the old state, in
which `(3,4)` is not present, and the returned state holds `[(3,4)]`. -/
theorem monitorDevices_emits_before_update_witness :
    ((⟨Signal.deviceInserted [{ vid := 3, pid := 4 }],
        ⟨[], [{ vid := 1, pid := 2 }], false⟩⟩ : Emission).seen
        = ⟨[], [{ vid := 1, pid := 2 }], false⟩
      ∧ (QUsbInfo.isPresent ⟨[], [{ vid := 1, pid := 2 }], false⟩
          { vid := 3, pid := 4 }).ret = false)
    ∧ (QUsbInfo.monitorDevices ⟨[], [{ vid := 1, pid := 2 }], false⟩
        [{ vid := 3, pid := 4 }]).state.m_system_list = [{ vid := 3, pid := 4 }] :=
  have h := monitorDevices_emits_before_update ⟨[], [{ vid := 1, pid := 2 }], false⟩
    [{ vid := 3, pid := 4 }]
  have he := h.1 ⟨Signal.deviceInserted [{ vid := 3, pid := 4 }],
      ⟨[], [{ vid := 1, pid := 2 }], false⟩⟩ (by rw [monitorDevices_emitted]; decide)
  ⟨⟨he.1, he.2.1 _ rfl _ (by decide)⟩, h.2⟩

/-- C15 as stated fails. From the empty snapshot the list
`[(0x0483,0x3748), (0x0483,0x3748)]` (two identical devices) makes
`monitorDevices` emit `deviceInserted` carrying both entries, and from that
list as snapshot the empty list makes it emit `deviceRemoved` carrying both:
lists in which two entries have the same vid and pid. -/
theorem monitorDevices_notification_keeps_duplicates_counterexample :
    signalsOf (QUsbInfo.monitorDevices ⟨[], [], false⟩
        [{ vid := 0x0483, pid := 0x3748 }, { vid := 0x0483, pid := 0x3748 }]).emitted
      = [Signal.deviceInserted
          [{ vid := 0x0483, pid := 0x3748 }, { vid := 0x0483, pid := 0x3748 }]]
    ∧ signalsOf (QUsbInfo.monitorDevices
        ⟨[], [{ vid := 0x0483, pid := 0x3748 }, { vid := 0x0483, pid := 0x3748 }], false⟩
        []).emitted
      = [Signal.deviceRemoved
          [{ vid := 0x0483, pid := 0x3748 }, { vid := 0x0483, pid := 0x3748 }]]
    ∧ ¬ distinctIdentities [{ vid := 0x0483, pid := 0x3748 }, { vid := 0x0483, pid := 0x3748 }]
    ∧ ¬ (∀ l, Signal.deviceInserted l ∈ signalsOf (QUsbInfo.monitorDevices ⟨[], [], false⟩
          [{ vid := 0x0483, pid := 0x3748 }, { vid := 0x0483, pid := 0x3748 }]).emitted →
        distinctIdentities l)
    ∧ ¬ (∀ l, Signal.deviceRemoved l ∈ signalsOf (QUsbInfo.monitorDevices
          ⟨[], [{ vid := 0x0483, pid := 0x3748 }, { vid := 0x0483, pid := 0x3748 }], false⟩
          []).emitted →
        distinctIdentities l) := by
  have h₁ : signalsOf (QUsbInfo.monitorDevices ⟨[], [], false⟩
        [{ vid := 0x0483, pid := 0x3748 }, { vid := 0x0483, pid := 0x3748 }]).emitted
      = [Signal.deviceInserted
          [{ vid := 0x0483, pid := 0x3748 }, { vid := 0x0483, pid := 0x3748 }]] := by
    rw [monitorDevices_signals]; decide
  have h₂ : signalsOf (QUsbInfo.monitorDevices
        ⟨[], [{ vid := 0x0483, pid := 0x3748 }, { vid := 0x0483, pid := 0x3748 }], false⟩
        []).emitted
      = [Signal.deviceRemoved
          [{ vid := 0x0483, pid := 0x3748 }, { vid := 0x0483, pid := 0x3748 }]] := by
    rw [monitorDevices_signals]; decide
  have h₃ : ¬ distinctIdentities
      [{ vid := 0x0483, pid := 0x3748 }, { vid := 0x0483, pid := 0x3748 }] := by decide
  refine ⟨h₁, h₂, h₃, ?_, ?_⟩
  · intro h
    exact h₃ (h _ (by rw [h₁]; exact List.mem_singleton.mpr rfl))
  · intro h
    exact h₃ (h _ (by rw [h₂]; exact List.mem_singleton.mpr rfl))

/-- C15 as amended. The list of an emitted `deviceInserted` has no two
entries with the same vid and pid whenever the new list `B` has none, and it
carries each of its filters as many times as `B` lists it; the list of an
emitted `deviceRemoved` has no two entries with the same vid and pid whenever
the old snapshot has none, and it carries each of its filters as many times
as the old snapshot lists it. -/
theorem monitorDevices_notification_distinct_of_source (s : QUsbInfo) (B : FilterList) :
    (∀ l, Signal.deviceInserted l ∈ signalsOf (QUsbInfo.monitorDevices s B).emitted →
        (distinctIdentities B → distinctIdentities l) ∧ ∀ f ∈ l, l.count f = B.count f)
    ∧ (∀ l, Signal.deviceRemoved l ∈ signalsOf (QUsbInfo.monitorDevices s B).emitted →
        (distinctIdentities s.m_system_list → distinctIdentities l)
        ∧ ∀ f ∈ l, l.count f = s.m_system_list.count f) := by
  constructor
  · intro l hl
    rw [inserted_of_mem_signals s B l hl]
    exact ⟨distinctIdentities_listMinus _ _, fun f hf => count_listMinus _ _ f hf⟩
  · intro l hl
    rw [removed_of_mem_signals s B l hl]
    exact ⟨distinctIdentities_listMinus _ _, fun f hf => count_listMinus _ _ f hf⟩

/-- C15 as amended, at a concrete step: from the snapshot `[(1,2)]` the list
`[(3,4),(5,6)]`, which has no two entries of the same identity, gives a
`deviceInserted` list `[(3,4),(5,6)]` that has none either. -/
theorem monitorDevices_notification_distinct_of_source_witness :
    distinctIdentities [{ vid := 3, pid := 4 }, { vid := 5, pid := 6 }]
    ∧ Signal.deviceInserted [{ vid := 3, pid := 4 }, { vid := 5, pid := 6 }]
        ∈ signalsOf (QUsbInfo.monitorDevices ⟨[], [{ vid := 1, pid := 2 }], false⟩
            [{ vid := 3, pid := 4 }, { vid := 5, pid := 6 }]).emitted :=
  have hm : Signal.deviceInserted [{ vid := 3, pid := 4 }, { vid := 5, pid := 6 }]
      ∈ signalsOf (QUsbInfo.monitorDevices ⟨[], [{ vid := 1, pid := 2 }], false⟩
          [{ vid := 3, pid := 4 }, { vid := 5, pid := 6 }]).emitted := by
    rw [monitorDevices_signals]; decide
  ⟨((monitorDevices_notification_distinct_of_source ⟨[], [{ vid := 1, pid := 2 }], false⟩
      [{ vid := 3, pid := 4 }, { vid := 5, pid := 6 }]).1 _ hm).1 (by decide), hm⟩

/-! ## The claims on the hotplug callback and on `findDevice` -/

/-- C16. Whatever the event, a notification raised by `hotplugCallback`
carries the one-element list made of the `(idVendor, idProduct)` of the device
of the event, and at most one notification is raised. An arrival whose open
succeeds emits exactly one `deviceInserted` with that list and no
`deviceRemoved`; a departure that is processed (the handle is non-null) emits
exactly one `deviceRemoved` with that list and no `deviceInserted`. -/
theorem hotplugCallback_notifies_single_identity (handle : Option Nat) (manager : QUsbInfo)
    (device : libusb_device) (reply : OpenReply) :
    (∀ (event : Int), ∀ e ∈ (hotplugCallback handle manager device event reply).emitted,
        e.signal = Signal.deviceInserted
            [{ vid := device.desc.idVendor, pid := device.desc.idProduct }]
        ∨ e.signal = Signal.deviceRemoved
            [{ vid := device.desc.idVendor, pid := device.desc.idProduct }])
    ∧ (∀ (event : Int), (hotplugCallback handle manager device event reply).emitted.length ≤ 1)
    ∧ (reply.rc = LIBUSB_SUCCESS →
        signalsOf (hotplugCallback handle manager device
            LIBUSB_HOTPLUG_EVENT_DEVICE_ARRIVED reply).emitted
          = [Signal.deviceInserted
              [{ vid := device.desc.idVendor, pid := device.desc.idProduct }]])
    ∧ (handle.isSome = true →
        signalsOf (hotplugCallback handle manager device
            LIBUSB_HOTPLUG_EVENT_DEVICE_LEFT reply).emitted
          = [Signal.deviceRemoved
              [{ vid := device.desc.idVendor, pid := device.desc.idProduct }]]) := by
  refine ⟨?_, ?_, ?_, ?_⟩
  · intro event e he
    unfold hotplugCallback at he
    simp only at he
    split_ifs at he <;> simp at he <;> subst he <;> simp
  · intro event
    unfold hotplugCallback
    simp only
    split_ifs <;> simp
  · intro h
    have he : ¬ LIBUSB_SUCCESS ≠ (libusb_open reply handle).1 := by
      unfold libusb_open; rw [if_pos h]; exact fun hc => hc h.symm
    unfold hotplugCallback
    simp [he, signalsOf]
  · intro h
    unfold hotplugCallback
    simp [h, signalsOf, LIBUSB_HOTPLUG_EVENT_DEVICE_ARRIVED, LIBUSB_HOTPLUG_EVENT_DEVICE_LEFT]

/-- C16 at concrete inputs: the device `(0x0483,0x3748)` arriving with a
successful open, and leaving while a handle is held. -/
theorem hotplugCallback_notifies_single_identity_witness :
    signalsOf (hotplugCallback none ⟨[], [], true⟩ ⟨⟨0x0483, 0x3748⟩⟩
        LIBUSB_HOTPLUG_EVENT_DEVICE_ARRIVED ⟨0, 7⟩).emitted
      = [Signal.deviceInserted [{ vid := 0x0483, pid := 0x3748 }]]
    ∧ signalsOf (hotplugCallback (some 7) ⟨[], [], true⟩ ⟨⟨0x0483, 0x3748⟩⟩
        LIBUSB_HOTPLUG_EVENT_DEVICE_LEFT ⟨0, 7⟩).emitted
      = [Signal.deviceRemoved [{ vid := 0x0483, pid := 0x3748 }]] :=
  ⟨(hotplugCallback_notifies_single_identity none ⟨[], [], true⟩ ⟨⟨0x0483, 0x3748⟩⟩
      ⟨0, 7⟩).2.2.1 (by decide),
   (hotplugCallback_notifies_single_identity (some 7) ⟨[], [], true⟩ ⟨⟨0x0483, 0x3748⟩⟩
      ⟨0, 7⟩).2.2.2 (by decide)⟩

theorem split_cons_iff {α : Type} (P : α → Prop) (Q : List α → Prop) (x : α) (rest : List α) :
    (∃ pre e post, x :: rest = pre ++ e :: post ∧ P e ∧ Q post) ↔
      (P x ∧ Q rest) ∨ (∃ pre e post, rest = pre ++ e :: post ∧ P e ∧ Q post) := by
  constructor
  · rintro ⟨pre, e, post, heq, hP, hQ⟩
    cases pre with
    | nil =>
      simp only [List.nil_append, List.cons.injEq] at heq
      obtain ⟨rfl, rfl⟩ := heq
      exact Or.inl ⟨hP, hQ⟩
    | cons p pre =>
      simp only [List.cons_append, List.cons.injEq] at heq
      exact Or.inr ⟨pre, e, post, heq.2, hP, hQ⟩
  · rintro (⟨hP, hQ⟩ | ⟨pre, e, post, heq, hP, hQ⟩)
    · exact ⟨[], x, rest, rfl, hP, hQ⟩
    · exact ⟨x :: pre, e, post, by rw [heq]; rfl, hP, hQ⟩

theorem handleEvents_cons_handle (handle : Option Nat) (manager : QUsbInfo) (x : HotplugEvent)
    (rest : List HotplugEvent) :
    (handleEvents handle manager (x :: rest)).handle =
      (handleEvents (hotplugCallback handle manager x.device x.event x.reply).handle
        (hotplugCallback handle manager x.device x.event x.reply).manager rest).handle := rfl

/-- The handle is non-null after one run of the callback exactly when the
event is an opened arrival, or it is no departure and the handle was non-null
before. -/
theorem hotplugCallback_handle_isSome (handle : Option Nat) (manager : QUsbInfo)
    (x : HotplugEvent) :
    (hotplugCallback handle manager x.device x.event x.reply).handle.isSome = true ↔
      openedArrival x ∨ (¬ isDeparture x ∧ handle.isSome = true) := by
  unfold hotplugCallback libusb_open openedArrival isDeparture
  simp only
  by_cases h₁ : x.event = LIBUSB_HOTPLUG_EVENT_DEVICE_ARRIVED
  · have hx : ¬ LIBUSB_HOTPLUG_EVENT_DEVICE_ARRIVED = LIBUSB_HOTPLUG_EVENT_DEVICE_LEFT := by
      decide
    by_cases h₂ : x.reply.rc = LIBUSB_SUCCESS
    · simp [h₁, h₂]
    · have h₃ : ¬ LIBUSB_SUCCESS = x.reply.rc := fun hc => h₂ hc.symm
      simp [h₁, h₂, h₃, hx]
  · by_cases h₂ : x.event = LIBUSB_HOTPLUG_EVENT_DEVICE_LEFT
    · have hx : ¬ LIBUSB_HOTPLUG_EVENT_DEVICE_LEFT = LIBUSB_HOTPLUG_EVENT_DEVICE_ARRIVED := by
        decide
      cases handle <;> simp [h₂, hx]
    · simp [h₁, h₂]

theorem held_step (S N H A D : Prop) (h' : Option Nat)
    (hh : h'.isSome = true ↔ A ∨ (¬ D ∧ H)) :
    (S ∨ (h'.isSome = true ∧ N)) ↔ ((A ∧ N) ∨ S) ∨ (H ∧ ¬ D ∧ N) := by
  rw [hh]; tauto

/-- The handle held after a run of events that starts with the handle
`handle`: non-null exactly when some arrival of the run was opened and no
departure follows it in the run, or the run has no departure at all and the
handle was non-null at its start. -/
theorem handleEvents_handle_isSome (evs : List HotplugEvent) :
    ∀ (handle : Option Nat) (manager : QUsbInfo),
      ((handleEvents handle manager evs).handle.isSome = true ↔
        (∃ pre e post, evs = pre ++ e :: post ∧ openedArrival e ∧
          ∀ x ∈ post, ¬ isDeparture x) ∨
        (handle.isSome = true ∧ ∀ x ∈ evs, ¬ isDeparture x)) := by
  induction evs with
  | nil =>
    intro handle manager
    simp [handleEvents]
  | cons x rest ih =>
    intro handle manager
    rw [handleEvents_cons_handle, ih,
      split_cons_iff openedArrival (fun post : List HotplugEvent => ∀ y ∈ post, ¬ isDeparture y),
      List.forall_mem_cons]
    exact held_step _ _ _ _ _ _ (hotplugCallback_handle_isSome handle manager x)

theorem first_split {α : Type} (D : α → Prop) (q : List α) (h : ∃ x ∈ q, D x) :
    ∃ q₁ x q₂, q = q₁ ++ x :: q₂ ∧ D x ∧ ∀ y ∈ q₁, ¬ D y := by
  induction q with
  | nil => obtain ⟨x, hx, _⟩ := h; cases hx
  | cons a rest ih =>
    by_cases ha : D a
    · exact ⟨[], a, rest, rfl, ha, fun y hy => by cases hy⟩
    · obtain ⟨x, hx, hD⟩ := h
      have hx' : x ∈ rest := by
        rcases List.mem_cons.mp hx with rfl | hx'
        · exact absurd hD ha
        · exact hx'
      obtain ⟨q₁, y, q₂, heq, hy, hq₁⟩ := ih ⟨x, hx', hD⟩
      refine ⟨a :: q₁, y, q₂, by rw [heq]; rfl, hy, ?_⟩
      intro z hz
      rcases List.mem_cons.mp hz with rfl | hz'
      · exact ha
      · exact hq₁ z hz'

/-- One departure event, whatever the device and the handle. -/
theorem hotplugCallback_departure (handle : Option Nat) (manager : QUsbInfo)
    (device : libusb_device) (reply : OpenReply) :
    (hotplugCallback handle manager device LIBUSB_HOTPLUG_EVENT_DEVICE_LEFT reply).ret = 0
    ∧ (hotplugCallback handle manager device LIBUSB_HOTPLUG_EVENT_DEVICE_LEFT reply).handle = none
    ∧ (hotplugCallback handle manager device LIBUSB_HOTPLUG_EVENT_DEVICE_LEFT reply).emitted =
        if handle.isSome = true then
          [{ signal := Signal.deviceRemoved
                [{ vid := device.desc.idVendor, pid := device.desc.idProduct }],
             seen := manager }]
        else [] := by
  have hx : ¬ LIBUSB_HOTPLUG_EVENT_DEVICE_LEFT = LIBUSB_HOTPLUG_EVENT_DEVICE_ARRIVED := by
    decide
  unfold hotplugCallback
  cases handle <;> simp [hx]

/-- C17. The callback tracks one handle for all devices. After any run `pre`
of hotplug events from the null handle, a departure event of any device emits
`deviceRemoved` (carrying that device) if and only if the handle is non-null
at that moment; the handle is non-null exactly when some arrival of the run
was opened successfully and no departure follows it, which is to say no
departure after it emitted. For every handle value, a departure returns 0 and
leaves the handle null; with the handle null it emits nothing. -/
theorem hotplugCallback_tracks_single_handle (manager : QUsbInfo) (pre : List HotplugEvent)
    (device : libusb_device) (reply : OpenReply) :
    (signalsOf (hotplugCallback (handleEvents none manager pre).handle manager device
          LIBUSB_HOTPLUG_EVENT_DEVICE_LEFT reply).emitted
        = [Signal.deviceRemoved [{ vid := device.desc.idVendor, pid := device.desc.idProduct }]]
      ↔ (handleEvents none manager pre).handle.isSome = true)
    ∧ ((handleEvents none manager pre).handle.isSome = true ↔
        ∃ p e q, pre = p ++ e :: q ∧ openedArrival e ∧ ∀ x ∈ q, ¬ isDeparture x)
    ∧ ((handleEvents none manager pre).handle.isSome = true ↔
        ∃ p e q, pre = p ++ e :: q ∧ openedArrival e ∧
          ∀ q₁ x q₂, q = q₁ ++ x :: q₂ → isDeparture x →
            (hotplugCallback (handleEvents none manager (p ++ e :: q₁)).handle manager
              x.device x.event x.reply).emitted = [])
    ∧ (∀ (handle : Option Nat),
        (hotplugCallback handle manager device LIBUSB_HOTPLUG_EVENT_DEVICE_LEFT reply).ret = 0
        ∧ (hotplugCallback handle manager device
            LIBUSB_HOTPLUG_EVENT_DEVICE_LEFT reply).handle = none
        ∧ (handle = none →
            (hotplugCallback handle manager device
              LIBUSB_HOTPLUG_EVENT_DEVICE_LEFT reply).emitted = [])) := by
  have hsimple : ∀ (evs : List HotplugEvent),
      ((handleEvents none manager evs).handle.isSome = true ↔
        ∃ p e q, evs = p ++ e :: q ∧ openedArrival e ∧ ∀ x ∈ q, ¬ isDeparture x) := by
    intro evs
    rw [handleEvents_handle_isSome evs none manager]
    simp
  refine ⟨?_, hsimple pre, ?_, ?_⟩
  · have hd := (hotplugCallback_departure (handleEvents none manager pre).handle manager
      device reply).2.2
    rw [hd]
    cases (handleEvents none manager pre).handle <;> simp [signalsOf]
  · rw [hsimple pre]
    constructor
    · rintro ⟨p, e, q, heq, he, hq⟩
      refine ⟨p, e, q, heq, he, ?_⟩
      intro q₁ x q₂ hq' hx
      exact absurd hx (hq x (by rw [hq']; simp))
    · rintro ⟨p, e, q, heq, he, hq⟩
      refine ⟨p, e, q, heq, he, ?_⟩
      intro x hx hD
      obtain ⟨q₁, y, q₂, hsplit, hy, hq₁⟩ := first_split isDeparture q ⟨x, hx, hD⟩
      have hheld : (handleEvents none manager (p ++ e :: q₁)).handle.isSome = true :=
        (hsimple (p ++ e :: q₁)).mpr ⟨p, e, q₁, rfl, he, hq₁⟩
      have hem := hq q₁ y q₂ hsplit hy
      have hy' : y.event = LIBUSB_HOTPLUG_EVENT_DEVICE_LEFT := hy
      rw [hy', (hotplugCallback_departure _ manager y.device y.reply).2.2, if_pos hheld] at hem
      cases hem
  · intro handle
    have hd := hotplugCallback_departure handle manager device reply
    refine ⟨hd.1, hd.2.1, ?_⟩
    intro hnone
    rw [hd.2.2, hnone]
    rfl

/-- C17, the scenario of the claim: `(1,2)` arrives, `(3,4)` arrives, `(1,2)`
leaves, `(3,4)` leaves, both opens succeeding. The four events emit
`deviceInserted [(1,2)]`, `deviceInserted [(3,4)]`, `deviceRemoved [(1,2)]`
and nothing more: the third event emits `deviceRemoved [(1,2)]`, the fourth
emits nothing. -/
theorem hotplugCallback_tracks_single_handle_witness :
    signalsOf (handleEvents none ⟨[], [], true⟩
        [⟨⟨⟨1, 2⟩⟩, LIBUSB_HOTPLUG_EVENT_DEVICE_ARRIVED, ⟨0, 7⟩⟩,
         ⟨⟨⟨3, 4⟩⟩, LIBUSB_HOTPLUG_EVENT_DEVICE_ARRIVED, ⟨0, 8⟩⟩,
         ⟨⟨⟨1, 2⟩⟩, LIBUSB_HOTPLUG_EVENT_DEVICE_LEFT, ⟨0, 0⟩⟩,
         ⟨⟨⟨3, 4⟩⟩, LIBUSB_HOTPLUG_EVENT_DEVICE_LEFT, ⟨0, 0⟩⟩]).emitted
      = [Signal.deviceInserted [{ vid := 1, pid := 2 }],
         Signal.deviceInserted [{ vid := 3, pid := 4 }],
         Signal.deviceRemoved [{ vid := 1, pid := 2 }]]
    ∧ signalsOf (hotplugCallback (handleEvents none ⟨[], [], true⟩
          [⟨⟨⟨1, 2⟩⟩, LIBUSB_HOTPLUG_EVENT_DEVICE_ARRIVED, ⟨0, 7⟩⟩,
           ⟨⟨⟨3, 4⟩⟩, LIBUSB_HOTPLUG_EVENT_DEVICE_ARRIVED, ⟨0, 8⟩⟩]).handle
        ⟨[], [], true⟩ ⟨⟨1, 2⟩⟩ LIBUSB_HOTPLUG_EVENT_DEVICE_LEFT ⟨0, 0⟩).emitted
      = [Signal.deviceRemoved [{ vid := 1, pid := 2 }]]
    ∧ (hotplugCallback (handleEvents none ⟨[], [], true⟩
          [⟨⟨⟨1, 2⟩⟩, LIBUSB_HOTPLUG_EVENT_DEVICE_ARRIVED, ⟨0, 7⟩⟩,
           ⟨⟨⟨3, 4⟩⟩, LIBUSB_HOTPLUG_EVENT_DEVICE_ARRIVED, ⟨0, 8⟩⟩,
           ⟨⟨⟨1, 2⟩⟩, LIBUSB_HOTPLUG_EVENT_DEVICE_LEFT, ⟨0, 0⟩⟩]).handle
        ⟨[], [], true⟩ ⟨⟨3, 4⟩⟩ LIBUSB_HOTPLUG_EVENT_DEVICE_LEFT ⟨0, 0⟩).emitted = [] :=
  ⟨by decide,
   (hotplugCallback_tracks_single_handle ⟨[], [], true⟩
      [⟨⟨⟨1, 2⟩⟩, LIBUSB_HOTPLUG_EVENT_DEVICE_ARRIVED, ⟨0, 7⟩⟩,
       ⟨⟨⟨3, 4⟩⟩, LIBUSB_HOTPLUG_EVENT_DEVICE_ARRIVED, ⟨0, 8⟩⟩]
      ⟨⟨1, 2⟩⟩ ⟨0, 0⟩).1.mpr (by decide),
   (hotplugCallback_tracks_single_handle ⟨[], [], true⟩ [] ⟨⟨3, 4⟩⟩ ⟨0, 0⟩).2.2.2
      (handleEvents none ⟨[], [], true⟩
        [⟨⟨⟨1, 2⟩⟩, LIBUSB_HOTPLUG_EVENT_DEVICE_ARRIVED, ⟨0, 7⟩⟩,
         ⟨⟨⟨3, 4⟩⟩, LIBUSB_HOTPLUG_EVENT_DEVICE_ARRIVED, ⟨0, 8⟩⟩,
         ⟨⟨⟨1, 2⟩⟩, LIBUSB_HOTPLUG_EVENT_DEVICE_LEFT, ⟨0, 0⟩⟩]).handle |>.2.2 (by decide)⟩

/-- C18. `findDevice f L` returns -1 if and only if no entry of `L` has both
the pid and the vid of `f`; otherwise it returns the least index `i`, with
`0 ≤ i < length L`, whose entry matches `f` on both fields. The loop
terminates and stays inside `L`: run with checked indexing and a budget of
more than `length L` evaluations of the loop guard, it faults neither on the
budget nor on an index and returns that same value. -/
theorem findDevice_returns_least_match (f : QUsbDevice.Filter) (L : FilterList) :
    (QUsbInfo.findDevice f L = -1 ↔ ¬ ∃ e ∈ L, e.pid = f.pid ∧ e.vid = f.vid)
    ∧ (QUsbInfo.findDevice f L ≠ -1 →
        ∃ (i : Nat) (d : QUsbDevice.Filter),
          QUsbInfo.findDevice f L = (i : Int) ∧ i < L.length ∧ L[i]? = some d
          ∧ (d.pid = f.pid ∧ d.vid = f.vid)
          ∧ ∀ j, j < i → ∀ e, L[j]? = some e → ¬ (e.pid = f.pid ∧ e.vid = f.vid))
    ∧ (∀ fuel, L.length < fuel →
        QUsbInfo.findDevice.checked f L fuel 0 = Except.ok (QUsbInfo.findDevice f L)) := by
  refine ⟨?_, ?_, ?_⟩
  · rw [findDevice_eq_neg_one_iff]
    constructor
    · rintro h ⟨e, he, hp, hv⟩
      exact h ⟨e, he, hv, hp⟩
    · rintro h ⟨e, he, hv, hp⟩
      exact h ⟨e, he, hp, hv⟩
  · intro hne
    rcases findDevice_least f L with h | ⟨k, d, hk, hd, hs, hl⟩
    · exact absurd h hne
    · have hlt : k < L.length := (List.getElem?_eq_some.mp hd).1
      exact ⟨k, d, hk, hlt, hd, ⟨hs.2, hs.1⟩, fun j hj e he hc => hl j hj e he ⟨hc.2, hc.1⟩⟩
  · intro fuel hfuel
    exact findDevice_checked_eq f L fuel 0 (by omega)

/-- C18 at concrete inputs, on the list `[(1,2),(3,4),(3,4)]`: `(9,9)` is not
found, `(3,4)` is found at index 1, the first of its two positions, and the
checked loop with a budget of 4 returns that index without a fault. -/
theorem findDevice_returns_least_match_witness :
    QUsbInfo.findDevice { vid := 9, pid := 9 }
        [{ vid := 1, pid := 2 }, { vid := 3, pid := 4 }, { vid := 3, pid := 4 }] = -1
    ∧ QUsbInfo.findDevice { vid := 3, pid := 4 }
        [{ vid := 1, pid := 2 }, { vid := 3, pid := 4 }, { vid := 3, pid := 4 }] = 1
    ∧ QUsbInfo.findDevice.checked { vid := 3, pid := 4 }
        [{ vid := 1, pid := 2 }, { vid := 3, pid := 4 }, { vid := 3, pid := 4 }] 4 0
        = Except.ok 1 := by
  have h₁ := (findDevice_returns_least_match { vid := 9, pid := 9 }
    [{ vid := 1, pid := 2 }, { vid := 3, pid := 4 }, { vid := 3, pid := 4 }]).1.mpr (by decide)
  have h₂ : QUsbInfo.findDevice { vid := 3, pid := 4 }
      [{ vid := 1, pid := 2 }, { vid := 3, pid := 4 }, { vid := 3, pid := 4 }] = 1 := by
    rw [findDevice_eq]; decide
  have h₃ := (findDevice_returns_least_match { vid := 3, pid := 4 }
    [{ vid := 1, pid := 2 }, { vid := 3, pid := 4 }, { vid := 3, pid := 4 }]).2.2 4 (by decide)
  rw [h₂] at h₃
  exact ⟨h₁, h₂, h₃⟩
